import Mathlib

/-!
WMI error information (`ntl/ntlWmiException.hpp`).

A shallow embedding of `ntl::WmiErrorInfo` and `ntl::WmiException`.

* COM interface pointers are `Option` values (`none` is `nullptr`); reference counts are not
  represented, only which object a pointer designates.
* `HRESULT` is a signed 32-bit status, embedded in `Int`.
* `std::wstring` is `String`, `std::vector<std::wstring>` is `List String`,
  `unsigned int` / `unsigned short` are `Nat` reduced modulo `2 ^ 32` / `2 ^ 16`.
* A function that can throw returns `Except WmiException _`.
* The per-thread error slot read by `::GetErrorInfo` is passed explicitly.
* A string of an exception is a copy of the characters given or a reference to the buffer
  of the caller, as the copy flag of the constructor says.
* The class name of a `WmiException` is the string it designates; the ownership of its
  storage is treated apart, on a model of the allocator of `BSTR` strings.
* The sum in `error_text()` has two permitted orders of evaluation; both are embedded.
-/

namespace ntl

/-! ## Status codes -/

abbrev HRESULT := Int

def S_OK : HRESULT := 0

def S_FALSE : HRESULT := 1

/-- The status `0x80041002` of `Wbemidl.h`, read as a signed 32-bit value. -/
def WBEM_E_NOT_FOUND : HRESULT := 0x80041002 - 0x100000000

/-- The `FAILED(hr)` test of the platform headers: the sign bit is set. -/
def FAILED (hr : HRESULT) : Bool := decide (hr < 0)

/-- The `SUCCEEDED(hr)` test of the platform headers. -/
def SUCCEEDED (hr : HRESULT) : Bool := decide (0 ≤ hr)

/-! ## Dynamically typed values -/

/-- The dynamic value handed back by a property query: nothing (`VT_EMPTY`), the null value
(`VT_NULL`), a text string, an unsigned 32-bit or 16-bit integer, or a sequence of strings. -/
inductive Variant where
  | empty
  | null
  | bstr (s : String)
  | ui4 (n : Nat)
  | ui2 (n : Nat)
  | bstrArray (a : List String)
  deriving DecidableEq, Repr

namespace ComVariant

/-- Modelled from the spec: `ntl::ComVariant::is_empty` (declared in `ntlComInitialize.hpp`,
which is not among the sources). The value is absent. -/
def is_empty (var : Variant) : Bool :=
  match var with
  | .empty => true
  | _ => false

/-- Modelled from the spec: `ntl::ComVariant::is_null` (declared in `ntlComInitialize.hpp`,
which is not among the sources). The value is the null value. -/
def is_null (var : Variant) : Bool :=
  match var with
  | .null => true
  | _ => false

/-- Modelled from the spec: `ntl::ComVariant::retrieve(std::wstring*)`, the type-directed
coercion of a dynamic value into a string. A text value is taken as it is; the spec names no
conversion for the other kinds, which give the empty string here. -/
def retrieve_wstring (var : Variant) : String :=
  match var with
  | .bstr s => s
  | _ => ""

/-- Modelled from the spec: `ntl::ComVariant::retrieve(unsigned int*)`, the type-directed
coercion into an unsigned 32-bit integer. The spec names no conversion for the other kinds,
which give `0` here. -/
def retrieve_uint (var : Variant) : Nat :=
  match var with
  | .ui4 n => n % 2 ^ 32
  | _ => 0

/-- Modelled from the spec: `ntl::ComVariant::retrieve(unsigned short*)`, the type-directed
coercion into an unsigned 16-bit integer. The spec names no conversion for the other kinds,
which give `0` here. -/
def retrieve_ushort (var : Variant) : Nat :=
  match var with
  | .ui2 n => n % 2 ^ 16
  | _ => 0

/-- Modelled from the spec: `ntl::ComVariant::retrieve(std::vector<std::wstring>*)`, the
type-directed coercion into an ordered sequence of strings. The spec names no conversion for
the other kinds, which give the empty sequence here. -/
def retrieve_vector (var : Variant) : List String :=
  match var with
  | .bstrArray a => a
  | _ => []

end ComVariant

/-! ## The remote objects -/

/-- An `IWbemClassObject`: for every property name the status of the query and the value it
yields when the status is a success. -/
structure IWbemClassObject where
  property : String → HRESULT × Variant

/-- The call `obj->Get(name, 0, pVal, nullptr, nullptr)`: the status, and the variant after
the call. The platform writes `pVal` on success and leaves it unmodified on an error. -/
def IWbemClassObject.Get (obj : IWbemClassObject) (name : String) (pVal : Variant) :
    HRESULT × Variant :=
  if FAILED (obj.property name).1 then ((obj.property name).1, pVal)
  else ((obj.property name).1, (obj.property name).2)

/-- An `IErrorInfo` error object: the outcome of asking it for its `IWbemClassObject`
interface (status and the pointer written to the out-parameter). -/
structure IErrorInfo where
  QueryInterface : HRESULT × Option IWbemClassObject

/-- The per-thread error slot. -/
abbrev ErrorSlot := Option IErrorInfo

/-- The call `::GetErrorInfo(0, &p)`: `S_OK` and the error object when the slot holds one,
`S_FALSE` and no object otherwise; the slot is empty afterwards. -/
def GetErrorInfo (slot : ErrorSlot) : HRESULT × Option IErrorInfo × ErrorSlot :=
  match slot with
  | some e => (S_OK, some e, none)
  | none => (S_FALSE, none, none)

/-- The error object supports the property-bag capability: the query for the
`IWbemClassObject` interface succeeds and hands out an interface pointer. -/
def IErrorInfo.bag_capable (e : IErrorInfo) : Bool :=
  SUCCEEDED e.QueryInterface.1 && e.QueryInterface.2.isSome

/-! ## `WmiErrorInfo` -/

structure WmiErrorInfo where
  error_info : Option IWbemClassObject

namespace WmiErrorInfo

def release (_self : WmiErrorInfo) : WmiErrorInfo :=
  { error_info := none }

def has_error (self : WmiErrorInfo) : Bool :=
  self.error_info.isSome

/-- `get_error_info()`: the bag afterwards and the slot afterwards. The interface query
writes its out-parameter, which is the member `error_info`. -/
def get_error_info (self : WmiErrorInfo) (slot : ErrorSlot) : WmiErrorInfo × ErrorSlot :=
  let r := GetErrorInfo slot
  let st : HRESULT × WmiErrorInfo :=
    match r.2.1 with
    | some errorInfo =>
      if S_OK = r.1 then
        (if SUCCEEDED errorInfo.QueryInterface.1 then S_OK else errorInfo.QueryInterface.1,
         { error_info := errorInfo.QueryInterface.2 })
      else (r.1, self)
    | none => (r.1, self)
  if st.1 ≠ S_OK then (st.2.release, r.2.2) else (st.2, r.2.2)

/-- `a.swap(b)`: the pair `(a, b)` afterwards. -/
def swap (self _lhs : WmiErrorInfo) : WmiErrorInfo × WmiErrorInfo :=
  ({ error_info := _lhs.error_info }, { error_info := self.error_info })

/-- The default constructor `WmiErrorInfo()`. -/
def ctor (slot : ErrorSlot) : WmiErrorInfo × ErrorSlot :=
  get_error_info { error_info := none } slot

/-- The constructor from a pointer already held. -/
def ctor_ptr (_error_info : Option IWbemClassObject) : WmiErrorInfo :=
  { error_info := _error_info }

/-- The copy constructor. -/
def ctor_copy (_inObj : WmiErrorInfo) : WmiErrorInfo :=
  { error_info := _inObj.error_info }

/-- Copy assignment `self = _inObj`: `self` afterwards. -/
def assign_copy (self _inObj : WmiErrorInfo) : WmiErrorInfo :=
  (self.swap (ctor_copy _inObj)).1

/-- The move constructor: the new object and `_inObj` afterwards. -/
def ctor_move (_inObj : WmiErrorInfo) : WmiErrorInfo × WmiErrorInfo :=
  swap { error_info := none } _inObj

/-- Move assignment `self = std::move(_inObj)`: `self` and `_inObj` afterwards. -/
def assign_move (self _inObj : WmiErrorInfo) : WmiErrorInfo × WmiErrorInfo :=
  ((self.swap (ctor_move _inObj).1).1, (ctor_move _inObj).2)

end WmiErrorInfo

/-- The non-member `swap(_rhs, _lhs)`. -/
def swap (_rhs _lhs : WmiErrorInfo) : WmiErrorInfo × WmiErrorInfo :=
  _rhs.swap _lhs

/-! ## `WmiException` -/

/-- Where the characters behind a string pointer live: in static storage (a string literal)
or in an automatic array of the calling function, which ends with the call. -/
inductive Storage where
  | static
  | automatic
  deriving DecidableEq, Repr

/-- A `LPCWSTR` argument: the characters it points to and where they live. -/
structure LPCWSTR where
  text : String
  storage : Storage
  deriving DecidableEq, Repr

/-- Modelled from the spec: a string member of the base class `ntl::Exception`
(`ntlException.hpp` is not among the sources), whose constructors take a string together
with a flag "copy or reference": the exception owns a copy of the characters, or it holds
the pointer of the caller, of which `text` is what the buffer held at construction. -/
inductive ExceptionString where
  | copied (text : String)
  | referenced (text : String) (storage : Storage)
  deriving DecidableEq, Repr

namespace ExceptionString

/-- Modelled from the spec: the member made of an argument and its copy flag. -/
def make (arg : LPCWSTR) (copy : Bool) : ExceptionString :=
  if copy then copied arg.text else referenced arg.text arg.storage

/-- The characters given at construction. -/
def text : ExceptionString → String
  | copied t => t
  | referenced t _ => t

/-- What the string designates once the function that built the exception has been left,
as it is for whoever catches the exception: the characters of a copy and of a static
buffer, and nothing for a reference to an automatic array, which no longer exists. -/
def after_return : ExceptionString → Option String
  | copied t => some t
  | referenced t Storage.static => some t
  | referenced _ Storage.automatic => none

end ExceptionString

/-- A `WmiException`: the status code, message and location of the `ntl::Exception` base,
the class name (`none` is the null `BSTR`) and the embedded error information. -/
structure WmiException where
  code : HRESULT
  message : ExceptionString
  location : ExceptionString
  className : Option String
  errorInfo : WmiErrorInfo

namespace WmiException

/-- The member `bstrVal` of a variant read as a `BSTR`: the string of a text value, and the
null pointer for a variant holding no string. -/
def bstrVal (variant : Variant) : Option String :=
  match variant with
  | .bstr s => some s
  | _ => none

/-- `get_className(_classObject)`: the member `className` afterwards. -/
def get_className (className : Option String) (_classObject : Option IWbemClassObject) :
    Option String :=
  match _classObject with
  | some obj =>
    if SUCCEEDED (obj.Get "__CLASS" Variant.empty).1 then
      bstrVal (obj.Get "__CLASS" Variant.empty).2
    else className
  | none => className

/-- The constructor `WmiException(code, classObject, message, location, bothStringCopy)`. -/
def ctor_code_class_message_location (slot : ErrorSlot) (_ulCode : HRESULT)
    (_classObject : Option IWbemClassObject) (_wszMessage _wszLocation : LPCWSTR)
    (_bBothStringCopy : Bool) : WmiException × ErrorSlot :=
  ({ code := _ulCode
     message := ExceptionString.make _wszMessage _bBothStringCopy
     location := ExceptionString.make _wszLocation _bBothStringCopy
     className := get_className none _classObject
     errorInfo := (WmiErrorInfo.ctor slot).1 },
   (WmiErrorInfo.ctor slot).2)

/-- The constructor `WmiException()`. Modelled from the spec: the base class
`ntl::Exception` (`ntlException.hpp` is not among the sources) keeps the status code, the
message and the location it is given, each string copied or referenced as the copy flag
says; a part it is not given is zero or empty. -/
def ctor_default (slot : ErrorSlot) : WmiException × ErrorSlot :=
  ({ code := 0
     message := ExceptionString.copied ""
     location := ExceptionString.copied ""
     className := none
     errorInfo := (WmiErrorInfo.ctor slot).1 },
   (WmiErrorInfo.ctor slot).2)

/-- The constructor `WmiException(code)`. -/
def ctor_code (slot : ErrorSlot) (_ulCode : HRESULT) : WmiException × ErrorSlot :=
  ({ code := _ulCode
     message := ExceptionString.copied ""
     location := ExceptionString.copied ""
     className := none
     errorInfo := (WmiErrorInfo.ctor slot).1 },
   (WmiErrorInfo.ctor slot).2)

/-- The constructor `WmiException(code, classObject)`. -/
def ctor_code_class (slot : ErrorSlot) (_ulCode : HRESULT)
    (_classObject : Option IWbemClassObject) : WmiException × ErrorSlot :=
  ({ code := _ulCode
     message := ExceptionString.copied ""
     location := ExceptionString.copied ""
     className := get_className none _classObject
     errorInfo := (WmiErrorInfo.ctor slot).1 },
   (WmiErrorInfo.ctor slot).2)

/-- The constructor `WmiException(message, messageCopy)`. -/
def ctor_message (slot : ErrorSlot) (_wszMessage : LPCWSTR) (_bMessageCopy : Bool) :
    WmiException × ErrorSlot :=
  ({ code := 0
     message := ExceptionString.make _wszMessage _bMessageCopy
     location := ExceptionString.copied ""
     className := none
     errorInfo := (WmiErrorInfo.ctor slot).1 },
   (WmiErrorInfo.ctor slot).2)

/-- The constructor `WmiException(message, classObject, messageCopy)`. -/
def ctor_message_class (slot : ErrorSlot) (_wszMessage : LPCWSTR)
    (_classObject : Option IWbemClassObject) (_bMessageCopy : Bool) :
    WmiException × ErrorSlot :=
  ({ code := 0
     message := ExceptionString.make _wszMessage _bMessageCopy
     location := ExceptionString.copied ""
     className := get_className none _classObject
     errorInfo := (WmiErrorInfo.ctor slot).1 },
   (WmiErrorInfo.ctor slot).2)

/-- The constructor `WmiException(code, message, messageCopy)`. -/
def ctor_code_message (slot : ErrorSlot) (_ulCode : HRESULT) (_wszMessage : LPCWSTR)
    (_bMessageCopy : Bool) : WmiException × ErrorSlot :=
  ({ code := _ulCode
     message := ExceptionString.make _wszMessage _bMessageCopy
     location := ExceptionString.copied ""
     className := none
     errorInfo := (WmiErrorInfo.ctor slot).1 },
   (WmiErrorInfo.ctor slot).2)

/-- The constructor `WmiException(code, classObject, message, messageCopy)`. -/
def ctor_code_class_message (slot : ErrorSlot) (_ulCode : HRESULT)
    (_classObject : Option IWbemClassObject) (_wszMessage : LPCWSTR) (_bMessageCopy : Bool) :
    WmiException × ErrorSlot :=
  ({ code := _ulCode
     message := ExceptionString.make _wszMessage _bMessageCopy
     location := ExceptionString.copied ""
     className := get_className none _classObject
     errorInfo := (WmiErrorInfo.ctor slot).1 },
   (WmiErrorInfo.ctor slot).2)

/-- The constructor `WmiException(code, message, location, bothStringCopy)`. -/
def ctor_code_message_location (slot : ErrorSlot) (_ulCode : HRESULT)
    (_wszMessage _wszLocation : LPCWSTR) (_bBothStringCopy : Bool) :
    WmiException × ErrorSlot :=
  ({ code := _ulCode
     message := ExceptionString.make _wszMessage _bBothStringCopy
     location := ExceptionString.make _wszLocation _bBothStringCopy
     className := none
     errorInfo := (WmiErrorInfo.ctor slot).1 },
   (WmiErrorInfo.ctor slot).2)

/-- The copy constructor: a class name that is not null is duplicated with `SysAllocString`,
which gives the null pointer when `allocated` is false (the platform has no memory for the
copy); the error information is copied. -/
def ctor_copy (e : WmiException) (allocated : Bool) : WmiException :=
  { code := e.code
    message := e.message
    location := e.location
    className := match e.className with
      | some s => if allocated then some s else none
      | none => none
    errorInfo := WmiErrorInfo.ctor_copy e.errorInfo }

def class_w (self : WmiException) : String :=
  match self.className with
  | none => ""
  | some s => s

def error_info (self : WmiException) : WmiErrorInfo :=
  WmiErrorInfo.ctor_copy self.errorInfo

end WmiException

/-! ## Property access -/

/-- The call `_snwprintf_s(buffer, size, _TRUNCATE, L"WmiErrorInfo::%s", _parameter)` of the
C runtime: the formatted text, cut to what fits the buffer with its terminator. -/
def _snwprintf_s (size : Nat) (_parameter : String) : String :=
  String.mk (("WmiErrorInfo::" ++ _parameter).toList.take (size - 1))

namespace WmiErrorInfo

/-- `get_parameter_value<T>(_parameter, _value)`, where `retrieve` is the overload of
`ComVariant::retrieve` selected by `T`: the returned flag and `*_value` afterwards, or the
exception thrown. The message of the exception is a string literal, its location is the
automatic array `function[128]` of this function, and both are passed with the copy flag
`false`. -/
def get_parameter_value {T : Type} (self : WmiErrorInfo) (slot : ErrorSlot)
    (retrieve : Variant → T) (_parameter : String) (_value : T) :
    Except WmiException (Bool × T) :=
  let q : Except WmiException Variant :=
    match self.error_info with
    | some obj =>
      if FAILED (obj.Get _parameter Variant.empty).1
          && (obj.Get _parameter Variant.empty).1 != WBEM_E_NOT_FOUND then
        Except.error (WmiException.ctor_code_class_message_location slot
          (obj.Get _parameter Variant.empty).1 (some obj)
          { text := "IWbemClassObject::Get", storage := Storage.static }
          { text := _snwprintf_s 128 _parameter, storage := Storage.automatic } false).1
      else Except.ok (obj.Get _parameter Variant.empty).2
    | none => Except.ok Variant.empty
  match q with
  | Except.error e => Except.error e
  | Except.ok var =>
    if !ComVariant.is_empty var && !ComVariant.is_null var then
      Except.ok (true, retrieve var)
    else Except.ok (false, _value)

/-! ### The accessors of the `__ExtendedStatus` properties -/

def get_ProviderName (self : WmiErrorInfo) (slot : ErrorSlot) (_provider_name : String) :
    Except WmiException (Bool × String) :=
  let _provider_name := ""
  self.get_parameter_value slot ComVariant.retrieve_wstring "ProviderName" _provider_name

def get_Operation (self : WmiErrorInfo) (slot : ErrorSlot) (_operation : String) :
    Except WmiException (Bool × String) :=
  let _operation := ""
  self.get_parameter_value slot ComVariant.retrieve_wstring "Operation" _operation

def get_ParameterInfo (self : WmiErrorInfo) (slot : ErrorSlot) (_parameter_info : String) :
    Except WmiException (Bool × String) :=
  let _parameter_info := ""
  self.get_parameter_value slot ComVariant.retrieve_wstring "ParameterInfo" _parameter_info

def get_Description (self : WmiErrorInfo) (slot : ErrorSlot) (_description : String) :
    Except WmiException (Bool × String) :=
  let _description := ""
  self.get_parameter_value slot ComVariant.retrieve_wstring "Description" _description

def get_StatusCode (self : WmiErrorInfo) (slot : ErrorSlot) (_status_code : Nat) :
    Except WmiException (Bool × Nat) :=
  let _status_code := 0xffffffff
  self.get_parameter_value slot ComVariant.retrieve_uint "StatusCode" _status_code

/-! ### The accessors of the `CIM_Error` properties -/

def get_ErrorType (self : WmiErrorInfo) (slot : ErrorSlot) (_error_type : Nat) :
    Except WmiException (Bool × Nat) :=
  let _error_type := 0xffffffff
  self.get_parameter_value slot ComVariant.retrieve_uint "ErrorType" _error_type

def get_OtherErrorType (self : WmiErrorInfo) (slot : ErrorSlot) (_other_error_type : String) :
    Except WmiException (Bool × String) :=
  let _other_error_type := ""
  self.get_parameter_value slot ComVariant.retrieve_wstring "OtherErrorType" _other_error_type

def get_OwningEntity (self : WmiErrorInfo) (slot : ErrorSlot) (_owning_entity : String) :
    Except WmiException (Bool × String) :=
  let _owning_entity := ""
  self.get_parameter_value slot ComVariant.retrieve_wstring "OwningEntity" _owning_entity

def get_MessageID (self : WmiErrorInfo) (slot : ErrorSlot) (_message_id : String) :
    Except WmiException (Bool × String) :=
  let _message_id := ""
  self.get_parameter_value slot ComVariant.retrieve_wstring "MessageID" _message_id

def get_Message (self : WmiErrorInfo) (slot : ErrorSlot) (_message : String) :
    Except WmiException (Bool × String) :=
  let _message := ""
  self.get_parameter_value slot ComVariant.retrieve_wstring "Message" _message

def get_MessageArguments (self : WmiErrorInfo) (slot : ErrorSlot)
    (_message_arguments : List String) : Except WmiException (Bool × List String) :=
  let _message_arguments := []
  self.get_parameter_value slot ComVariant.retrieve_vector "MessageArguments" _message_arguments

def get_PerceivedSeverity (self : WmiErrorInfo) (slot : ErrorSlot) (_perceived_severity : Nat) :
    Except WmiException (Bool × Nat) :=
  let _perceived_severity := 0xffff
  self.get_parameter_value slot ComVariant.retrieve_ushort "PerceivedSeverity" _perceived_severity

def get_ProbableCause (self : WmiErrorInfo) (slot : ErrorSlot) (_probable_cause : Nat) :
    Except WmiException (Bool × Nat) :=
  let _probable_cause := 0xffff
  self.get_parameter_value slot ComVariant.retrieve_ushort "ProbableCause" _probable_cause

def get_ProbableCauseDescription (self : WmiErrorInfo) (slot : ErrorSlot)
    (_probable_cause_description : String) : Except WmiException (Bool × String) :=
  let _probable_cause_description := ""
  self.get_parameter_value slot ComVariant.retrieve_wstring "ProbableCauseDescription"
    _probable_cause_description

def get_RecommendedActions (self : WmiErrorInfo) (slot : ErrorSlot)
    (_recommended_actions : List String) : Except WmiException (Bool × List String) :=
  let _recommended_actions := []
  self.get_parameter_value slot ComVariant.retrieve_vector "RecommendedActions"
    _recommended_actions

def get_ErrorSource (self : WmiErrorInfo) (slot : ErrorSlot) (_error_source : String) :
    Except WmiException (Bool × String) :=
  let _error_source := ""
  self.get_parameter_value slot ComVariant.retrieve_wstring "ErrorSource" _error_source

def get_ErrorSourceFormat (self : WmiErrorInfo) (slot : ErrorSlot) (_error_source_format : Nat) :
    Except WmiException (Bool × Nat) :=
  let _error_source_format := 0xffff
  self.get_parameter_value slot ComVariant.retrieve_ushort "ErrorSourceFormat"
    _error_source_format

def get_OtherErrorSourceFormat (self : WmiErrorInfo) (slot : ErrorSlot)
    (_other_error_source_format : String) : Except WmiException (Bool × String) :=
  let _other_error_source_format := ""
  self.get_parameter_value slot ComVariant.retrieve_wstring "OtherErrorSourceFormat"
    _other_error_source_format

def get_CIMStatusCode (self : WmiErrorInfo) (slot : ErrorSlot) (_cim_status_code : Nat) :
    Except WmiException (Bool × Nat) :=
  let _cim_status_code := 0
  self.get_parameter_value slot ComVariant.retrieve_uint "CIMStatusCode" _cim_status_code

def get_CIMStatusCodeDescription (self : WmiErrorInfo) (slot : ErrorSlot)
    (_cim_status_code_description : String) : Except WmiException (Bool × String) :=
  let _cim_status_code_description := ""
  self.get_parameter_value slot ComVariant.retrieve_wstring "CIMStatusCodeDescription"
    _cim_status_code_description

end WmiErrorInfo

/-! ## Rendering of integers -/

/-- The conversion of an `unsigned int` argument to the `int` parameter of `_itow_s`
(two's complement, 32 bits). -/
def int_of_uint (v : Nat) : Int :=
  if v % 2 ^ 32 < 2 ^ 31 then ((v % 2 ^ 32 : Nat) : Int) else ((v % 2 ^ 32 : Nat) : Int) - 2 ^ 32

/-- The promotion of an `unsigned short` argument to the `int` parameter of `_itow_s`. -/
def int_of_ushort (v : Nat) : Int :=
  ((v % 2 ^ 16 : Nat) : Int)

def EINVAL : Nat := 22

def ERANGE : Nat := 34

/-- The digit written by the C runtime for a digit value. -/
def xtow_digit (digval : Nat) : Char :=
  if digval > 9 then Char.ofNat (digval - 10 + 97) else Char.ofNat (digval + 48)

/-- The digit loop of the C runtime conversion, `do ... while (val > 0 && length <
sizeInTChars)`: one digit is written per round, least significant first; `room` is
`sizeInTChars - length` on entry of a round. -/
def xtow_loop (radix : Nat) : Nat → Nat → List Char → List Char
  | 0, _, buf => buf
  | room + 1, val, buf =>
    if val / radix > 0 then xtow_loop radix room (val / radix) (buf ++ [xtow_digit (val % radix)])
    else buf ++ [xtow_digit (val % radix)]

/-- The worker of the C runtime behind `_itow_s` (after the documented behaviour of the
runtime: argument validation, an optional minus sign, the digits written least significant
first and then reversed in place, `ERANGE` when the buffer is too small): the error number
and the buffer. -/
def xtow_s (val sizeInTChars radix : Nat) (is_neg : Bool) : Nat × String :=
  if sizeInTChars = 0 then (EINVAL, "")
  else if sizeInTChars ≤ (if is_neg then 2 else 1) then (ERANGE, "")
  else if radix < 2 ∨ 36 < radix then (EINVAL, "")
  else
    let sign : List Char := if is_neg then ['-'] else []
    let val := if is_neg then (2 ^ 32 - val) % 2 ^ 32 else val
    let buf := xtow_loop radix (sizeInTChars - sign.length) val sign
    if sizeInTChars ≤ buf.length then (ERANGE, "")
    else (0, String.mk (sign ++ (buf.drop sign.length).reverse))

/-- The C runtime routine `_itow_s(value, buffer, radix)` for a buffer of `sizeInTChars`
characters: a negative value in radix 10 is written with a minus sign, any other value as
the unsigned 32-bit pattern of `value`. -/
def _itow_s (value : Int) (sizeInTChars radix : Nat) : Nat × String :=
  if radix = 10 ∧ value < 0 then xtow_s (value % 2 ^ 32).toNat sizeInTChars radix true
  else xtow_s (value % 2 ^ 32).toNat sizeInTChars radix false

/-- The buffer `iString` after `iString[31] = 0`, as the string it holds. -/
def terminate31 (iString : String) : String :=
  String.mk (iString.toList.take 31)

/-! ## The report -/

namespace WmiErrorInfo

def write_ExtendedStatus (self : WmiErrorInfo) (slot : ErrorSlot) :
    Except WmiException String := do
  let wsTemp : String := ""
  let intTemp : Nat := 0
  let wsprint : String := "__ExtendedStatus information:"
  let r ← self.get_parameter_value slot ComVariant.retrieve_wstring "ProviderName" wsTemp
  let wsTemp := r.2
  let wsprint := if r.1 then (wsprint ++ "\n\tProviderName: ") ++ wsTemp else wsprint
  let r ← self.get_parameter_value slot ComVariant.retrieve_wstring "Operation" wsTemp
  let wsTemp := r.2
  let wsprint := if r.1 then (wsprint ++ "\n\tOperation: ") ++ wsTemp else wsprint
  let r ← self.get_parameter_value slot ComVariant.retrieve_wstring "ParameterInfo" wsTemp
  let wsTemp := r.2
  let wsprint := if r.1 then (wsprint ++ "\n\tParameterInfo: ") ++ wsTemp else wsprint
  let r ← self.get_parameter_value slot ComVariant.retrieve_wstring "Description" wsTemp
  let wsTemp := r.2
  let wsprint := if r.1 then (wsprint ++ "\n\tDescription: ") ++ wsTemp else wsprint
  let r ← self.get_parameter_value slot ComVariant.retrieve_uint "StatusCode" intTemp
  let intTemp := r.2
  let wsprint :=
    if r.1 then
      if 0 = (_itow_s (int_of_uint intTemp) 32 10).1 then
        (wsprint ++ "\n\tStatusCode: ") ++ terminate31 (_itow_s (int_of_uint intTemp) 32 10).2
      else wsprint
    else wsprint
  pure (wsprint.push (Char.ofNat 10))

/-- The loop `std::for_each(vsTemp.begin(), vsTemp.end(), ...)` of `write_CIMError`: every
element is appended after a newline and a tab. -/
def for_each_append (wsprint : String) (vsTemp : List String) : String :=
  vsTemp.foldl (fun acc wsMessage => (acc ++ "\n\t") ++ wsMessage) wsprint

def write_CIMError (self : WmiErrorInfo) (slot : ErrorSlot) :
    Except WmiException String := do
  let wsTemp : String := ""
  let intTemp : Nat := 0
  let shortTemp : Nat := 0
  let vsTemp : List String := []
  let wsprint : String := "CIMError information:"
  let r ← self.get_parameter_value slot ComVariant.retrieve_uint "ErrorType" intTemp
  let intTemp := r.2
  let wsprint :=
    if r.1 then
      if 0 = (_itow_s (int_of_uint intTemp) 32 10).1 then
        (wsprint ++ "\n\tErrorType: ") ++ terminate31 (_itow_s (int_of_uint intTemp) 32 10).2
      else wsprint
    else wsprint
  let r ← self.get_parameter_value slot ComVariant.retrieve_wstring "OtherErrorType" wsTemp
  let wsTemp := r.2
  let wsprint := if r.1 then (wsprint ++ "\n\tOtherErrorType: ") ++ wsTemp else wsprint
  let r ← self.get_parameter_value slot ComVariant.retrieve_wstring "OwningEntity" wsTemp
  let wsTemp := r.2
  let wsprint := if r.1 then (wsprint ++ "\n\tOwningEntity: ") ++ wsTemp else wsprint
  let r ← self.get_parameter_value slot ComVariant.retrieve_wstring "MessageID" wsTemp
  let wsTemp := r.2
  let wsprint := if r.1 then (wsprint ++ "\n\tMessageID: ") ++ wsTemp else wsprint
  let r ← self.get_parameter_value slot ComVariant.retrieve_wstring "Message" wsTemp
  let wsTemp := r.2
  let wsprint := if r.1 then (wsprint ++ "\n\tMessage: ") ++ wsTemp else wsprint
  let r ← self.get_parameter_value slot ComVariant.retrieve_vector "MessageArguments" vsTemp
  let vsTemp := r.2
  let wsprint :=
    if r.1 then for_each_append (wsprint ++ "\n\tMessageArguments:") vsTemp else wsprint
  let r ← self.get_parameter_value slot ComVariant.retrieve_ushort "PerceivedSeverity" shortTemp
  let shortTemp := r.2
  let wsprint :=
    if r.1 then
      if 0 = (_itow_s (int_of_ushort shortTemp) 32 10).1 then
        (wsprint ++ "\n\tPerceivedSeverity: ")
          ++ terminate31 (_itow_s (int_of_ushort shortTemp) 32 10).2
      else wsprint
    else wsprint
  let r ← self.get_parameter_value slot ComVariant.retrieve_ushort "ProbableCause" shortTemp
  let shortTemp := r.2
  let wsprint :=
    if r.1 then
      if 0 = (_itow_s (int_of_ushort shortTemp) 32 10).1 then
        (wsprint ++ "\n\tProbableCause: ")
          ++ terminate31 (_itow_s (int_of_ushort shortTemp) 32 10).2
      else wsprint
    else wsprint
  let r ← self.get_parameter_value slot ComVariant.retrieve_wstring "ProbableCauseDescription"
    wsTemp
  let wsTemp := r.2
  let wsprint :=
    if r.1 then (wsprint ++ "\n\tProbableCauseDescription: ") ++ wsTemp else wsprint
  let r ← self.get_parameter_value slot ComVariant.retrieve_vector "RecommendedActions" vsTemp
  let vsTemp := r.2
  let wsprint :=
    if r.1 then for_each_append (wsprint ++ "\n\tRecommendedActions:") vsTemp else wsprint
  let r ← self.get_parameter_value slot ComVariant.retrieve_wstring "ErrorSource" wsTemp
  let wsTemp := r.2
  let wsprint := if r.1 then (wsprint ++ "\n\tErrorSource: ") ++ wsTemp else wsprint
  let r ← self.get_parameter_value slot ComVariant.retrieve_ushort "ErrorSourceFormat" shortTemp
  let shortTemp := r.2
  let wsprint :=
    if r.1 then
      if 0 = (_itow_s (int_of_ushort shortTemp) 32 10).1 then
        (wsprint ++ "\n\tErrorSourceFormat: ")
          ++ terminate31 (_itow_s (int_of_ushort shortTemp) 32 10).2
      else wsprint
    else wsprint
  let r ← self.get_parameter_value slot ComVariant.retrieve_wstring "OtherErrorSourceFormat"
    wsTemp
  let wsTemp := r.2
  let wsprint := if r.1 then (wsprint ++ "\n\tOtherErrorSourceFormat: ") ++ wsTemp else wsprint
  let r ← self.get_parameter_value slot ComVariant.retrieve_uint "CIMStatusCode" intTemp
  let intTemp := r.2
  let wsprint :=
    if r.1 then
      if 0 = (_itow_s (int_of_uint intTemp) 32 10).1 then
        (wsprint ++ "\n\tCIMStatusCode: ") ++ terminate31 (_itow_s (int_of_uint intTemp) 32 10).2
      else wsprint
    else wsprint
  let r ← self.get_parameter_value slot ComVariant.retrieve_wstring "CIMStatusCodeDescription"
    wsTemp
  let wsTemp := r.2
  let wsprint :=
    if r.1 then (wsprint ++ "\n\tCIMStatusCodeDescription: ") ++ wsTemp else wsprint
  pure (wsprint.push (Char.ofNat 10))

/-- `error_text()`: the sum `write_ExtendedStatus() + write_CIMError()`. The left operand is
evaluated first here; the language leaves the order of the two calls open, which shows only
in which exception is seen when both calls throw (`error_text_cim_first` is the other
order). -/
def error_text (self : WmiErrorInfo) (slot : ErrorSlot) : Except WmiException String := do
  let a ← self.write_ExtendedStatus slot
  let b ← self.write_CIMError slot
  pure (a ++ b)

/-- `error_text()` when the right operand of the sum, `write_CIMError()`, is evaluated
before the left one, which the language permits as well. -/
def error_text_cim_first (self : WmiErrorInfo) (slot : ErrorSlot) :
    Except WmiException String := do
  let b ← self.write_CIMError slot
  let a ← self.write_ExtendedStatus slot
  pure (a ++ b)

end WmiErrorInfo

/-! ## The schema, as a table over the accessors -/

/-- The twenty properties of the two schemas (`__ExtendedStatus`, then `CIM_Error`), in the
order of the report. -/
inductive Field where
  | ProviderName | Operation | ParameterInfo | Description | StatusCode
  | ErrorType | OtherErrorType | OwningEntity | MessageID | Message | MessageArguments
  | PerceivedSeverity | ProbableCause | ProbableCauseDescription | RecommendedActions
  | ErrorSource | ErrorSourceFormat | OtherErrorSourceFormat | CIMStatusCode
  | CIMStatusCodeDescription
  deriving DecidableEq, Repr

namespace Field

/-- The property name the accessor of a field passes to `get_parameter_value`. -/
def name : Field → String
  | ProviderName => "ProviderName"
  | Operation => "Operation"
  | ParameterInfo => "ParameterInfo"
  | Description => "Description"
  | StatusCode => "StatusCode"
  | ErrorType => "ErrorType"
  | OtherErrorType => "OtherErrorType"
  | OwningEntity => "OwningEntity"
  | MessageID => "MessageID"
  | Message => "Message"
  | MessageArguments => "MessageArguments"
  | PerceivedSeverity => "PerceivedSeverity"
  | ProbableCause => "ProbableCause"
  | ProbableCauseDescription => "ProbableCauseDescription"
  | RecommendedActions => "RecommendedActions"
  | ErrorSource => "ErrorSource"
  | ErrorSourceFormat => "ErrorSourceFormat"
  | OtherErrorSourceFormat => "OtherErrorSourceFormat"
  | CIMStatusCode => "CIMStatusCode"
  | CIMStatusCodeDescription => "CIMStatusCodeDescription"

/-- The kinds of output parameter of the accessors. -/
inductive Kind where
  | wstring | uint | ushort | vector
  deriving DecidableEq, Repr

/-- The kind of the output parameter of the accessor of a field. -/
def kind : Field → Kind
  | StatusCode | ErrorType | CIMStatusCode => Kind.uint
  | PerceivedSeverity | ProbableCause | ErrorSourceFormat => Kind.ushort
  | MessageArguments | RecommendedActions => Kind.vector
  | _ => Kind.wstring

/-- The type of the output parameter of a kind. -/
abbrev Kind.Out : Kind → Type
  | Kind.wstring => String
  | Kind.uint => Nat
  | Kind.ushort => Nat
  | Kind.vector => List String

/-- The overload of `ComVariant::retrieve` of a kind. -/
def Kind.retrieve : (k : Kind) → Variant → k.Out
  | Kind.wstring => ComVariant.retrieve_wstring
  | Kind.uint => ComVariant.retrieve_uint
  | Kind.ushort => ComVariant.retrieve_ushort
  | Kind.vector => ComVariant.retrieve_vector

/-- The accessor of a field. -/
def accessor : (f : Field) → WmiErrorInfo → ErrorSlot → f.kind.Out →
    Except WmiException (Bool × f.kind.Out)
  | ProviderName => WmiErrorInfo.get_ProviderName
  | Operation => WmiErrorInfo.get_Operation
  | ParameterInfo => WmiErrorInfo.get_ParameterInfo
  | Description => WmiErrorInfo.get_Description
  | StatusCode => WmiErrorInfo.get_StatusCode
  | ErrorType => WmiErrorInfo.get_ErrorType
  | OtherErrorType => WmiErrorInfo.get_OtherErrorType
  | OwningEntity => WmiErrorInfo.get_OwningEntity
  | MessageID => WmiErrorInfo.get_MessageID
  | Message => WmiErrorInfo.get_Message
  | MessageArguments => WmiErrorInfo.get_MessageArguments
  | PerceivedSeverity => WmiErrorInfo.get_PerceivedSeverity
  | ProbableCause => WmiErrorInfo.get_ProbableCause
  | ProbableCauseDescription => WmiErrorInfo.get_ProbableCauseDescription
  | RecommendedActions => WmiErrorInfo.get_RecommendedActions
  | ErrorSource => WmiErrorInfo.get_ErrorSource
  | ErrorSourceFormat => WmiErrorInfo.get_ErrorSourceFormat
  | OtherErrorSourceFormat => WmiErrorInfo.get_OtherErrorSourceFormat
  | CIMStatusCode => WmiErrorInfo.get_CIMStatusCode
  | CIMStatusCodeDescription => WmiErrorInfo.get_CIMStatusCodeDescription

/-- The value the accessor of a field writes to its output before it queries the bag. -/
def reset : (f : Field) → f.kind.Out
  | ProviderName => ""
  | Operation => ""
  | ParameterInfo => ""
  | Description => ""
  | StatusCode => (0xffffffff : Nat)
  | ErrorType => (0xffffffff : Nat)
  | OtherErrorType => ""
  | OwningEntity => ""
  | MessageID => ""
  | Message => ""
  | MessageArguments => ([] : List String)
  | PerceivedSeverity => (0xffff : Nat)
  | ProbableCause => (0xffff : Nat)
  | ProbableCauseDescription => ""
  | RecommendedActions => ([] : List String)
  | ErrorSource => ""
  | ErrorSourceFormat => (0xffff : Nat)
  | OtherErrorSourceFormat => ""
  | CIMStatusCode => (0 : Nat)
  | CIMStatusCodeDescription => ""

end Field

/-! ## What a query reports -/

/-- The value is neither empty nor null. -/
def present (var : Variant) : Bool :=
  !ComVariant.is_empty var && !ComVariant.is_null var

namespace WmiErrorInfo

/-- The bag holds a handle and the query of the named property reports a failure status
other than "not found". -/
def interop_failure (self : WmiErrorInfo) (name : String) : Bool :=
  match self.error_info with
  | some obj => FAILED (obj.property name).1 && (obj.property name).1 != WBEM_E_NOT_FOUND
  | none => false

/-- The value the query of the named property leaves in the variant when it is not an
interop failure: nothing without a handle or on "not found", the value found otherwise. -/
def queried (self : WmiErrorInfo) (name : String) : Variant :=
  match self.error_info with
  | some obj => if FAILED (obj.property name).1 then Variant.empty else (obj.property name).2
  | none => Variant.empty

/-- `e` is the exception that the query of the named property throws, whatever the type of
the output. -/
def throws_for (self : WmiErrorInfo) (slot : ErrorSlot) (name : String) (e : WmiException) :
    Prop :=
  ∀ (T : Type) (retrieve : Variant → T) (value : T),
    self.get_parameter_value slot retrieve name value = Except.error e

end WmiErrorInfo

/-! ## The lines of the report, after the spec -/

/-- The text the report shows for an unsigned 32-bit value: the base-10 numeral of the value
below `2 ^ 31`, and a minus sign followed by the base-10 numeral of `2 ^ 32` minus the value
from `2 ^ 31` on. -/
def written_uint (value : Nat) : String :=
  if value < 2 ^ 31 then toString value else "-" ++ toString (2 ^ 32 - value)

namespace WmiErrorInfo

/-- The line of a text property: newline, tab, the name, a colon and a blank, the string;
nothing when the property is not present. -/
def textLine (self : WmiErrorInfo) (name : String) : String :=
  if present (self.queried name) then
    "\n\t" ++ name ++ ": " ++ ComVariant.retrieve_wstring (self.queried name)
  else ""

/-- The line of an unsigned 32-bit property as the spec words it: newline, tab, the name, a
colon and a blank, the base-10 numeral of the unsigned value; nothing when the property is
not present. -/
def numeralLine (self : WmiErrorInfo) (name : String) : String :=
  if present (self.queried name) then
    "\n\t" ++ name ++ ": " ++ toString (ComVariant.retrieve_uint (self.queried name))
  else ""

/-- The line of an unsigned 32-bit property as the report writes it: the text after the
name is `written_uint` of the value, which is not its numeral from `2 ^ 31` on. -/
def uintLine (self : WmiErrorInfo) (name : String) : String :=
  if present (self.queried name) then
    "\n\t" ++ name ++ ": " ++ written_uint (ComVariant.retrieve_uint (self.queried name))
  else ""

/-- The line of an unsigned 16-bit property: the number in base 10. -/
def ushortLine (self : WmiErrorInfo) (name : String) : String :=
  if present (self.queried name) then
    "\n\t" ++ name ++ ": " ++ toString (ComVariant.retrieve_ushort (self.queried name))
  else ""

/-- The lines of a sequence property: the label line, then one line per element (newline,
tab, the element) in sequence order. -/
def vectorLine (self : WmiErrorInfo) (name : String) : String :=
  if present (self.queried name) then
    "\n\t" ++ name ++ ":"
      ++ String.join ((ComVariant.retrieve_vector (self.queried name)).map
          (fun element => "\n\t" ++ element))
  else ""

end WmiErrorInfo

/-! ## The report as a sequence of lines -/

namespace Field

/-- The fields of the `__ExtendedStatus` section, in the order of `write_ExtendedStatus`. -/
def extendedStatusFields : List Field :=
  [ProviderName, Operation, ParameterInfo, Description, StatusCode]

/-- The fields of the `CIM_Error` section, in the order of `write_CIMError`. -/
def cimErrorFields : List Field :=
  [ErrorType, OtherErrorType, OwningEntity, MessageID, Message, MessageArguments,
   PerceivedSeverity, ProbableCause, ProbableCauseDescription, RecommendedActions,
   ErrorSource, ErrorSourceFormat, OtherErrorSourceFormat, CIMStatusCode,
   CIMStatusCodeDescription]

/-- What follows the name of the field on its line, for an output value of each kind: a
colon, a blank and the text of a scalar value (the string, the numeral of a 16-bit value,
`written_uint` of a 32-bit value); a colon and one line per element for a sequence. -/
def Kind.tail : (k : Kind) → k.Out → String
  | Kind.wstring => fun value => ": " ++ value
  | Kind.uint => fun value => ": " ++ written_uint value
  | Kind.ushort => fun value => ": " ++ toString value
  | Kind.vector => fun value => ":" ++ String.join (value.map (fun element => "\n\t" ++ element))

/-- The part of the report that belongs to a field: its line (its lines, for a sequence)
when the field is present, nothing otherwise. -/
def line (self : WmiErrorInfo) (f : Field) : String :=
  if present (self.queried f.name) then
    "\n\t" ++ f.name ++ f.kind.tail (f.kind.retrieve (self.queried f.name))
  else ""

end Field

/-! ## Bags of the scenarios -/

/-- A bag in which every property is reported "not found". -/
def emptyObject : IWbemClassObject :=
  { property := fun _ => (WBEM_E_NOT_FOUND, Variant.empty) }

/-- The bag holding `ProviderName = "WinFirewall"` and `StatusCode = 5` and nothing else. -/
def firewallObject : IWbemClassObject :=
  { property := fun name =>
      if name = "ProviderName" then (S_OK, Variant.bstr "WinFirewall")
      else if name = "StatusCode" then (S_OK, Variant.ui4 5)
      else (WBEM_E_NOT_FOUND, Variant.empty) }

/-- The bag holding `MessageArguments = ["A", "B"]` and nothing else. -/
def argumentsObject : IWbemClassObject :=
  { property := fun name =>
      if name = "MessageArguments" then (S_OK, Variant.bstrArray ["A", "B"])
      else (WBEM_E_NOT_FOUND, Variant.empty) }

/-- The status `E_FAIL` (`0x80004005`), read as a signed 32-bit value. -/
def E_FAIL : HRESULT := 0x80004005 - 0x100000000

/-- A bag holding `ProviderName = "WinFirewall"` whose query of `Description` fails with
`E_FAIL`; every other property is reported "not found". -/
def brokenObject : IWbemClassObject :=
  { property := fun name =>
      if name = "ProviderName" then (S_OK, Variant.bstr "WinFirewall")
      else if name = "Description" then (E_FAIL, Variant.empty)
      else (WBEM_E_NOT_FOUND, Variant.empty) }

/-- The bag holding `StatusCode = 0x80041001` (an unsigned 32-bit value) and nothing
else. -/
def failedStatusObject : IWbemClassObject :=
  { property := fun name =>
      if name = "StatusCode" then (S_OK, Variant.ui4 0x80041001)
      else (WBEM_E_NOT_FOUND, Variant.empty) }

/-- The bag holding `ErrorType = 0xffffffff` and `CIMStatusCode = 0x80000000` (unsigned
32-bit values) and nothing else. -/
def wideCodesObject : IWbemClassObject :=
  { property := fun name =>
      if name = "ErrorType" then (S_OK, Variant.ui4 0xffffffff)
      else if name = "CIMStatusCode" then (S_OK, Variant.ui4 0x80000000)
      else (WBEM_E_NOT_FOUND, Variant.empty) }

/-- The bag holding the one property `name` with the value `value` and nothing else. -/
def singleObject (name : String) (value : Variant) : IWbemClassObject :=
  { property := fun n => if n = name then (S_OK, value) else (WBEM_E_NOT_FOUND, Variant.empty) }

/-- A bag whose query of `Description` fails with `E_FAIL` and whose query of `Message`
fails with `E_ACCESSDENIED`; every other property is reported "not found". -/
def doubleFailureObject : IWbemClassObject :=
  { property := fun name =>
      if name = "Description" then (E_FAIL, Variant.empty)
      else if name = "Message" then (0x80070005 - 0x100000000, Variant.empty)
      else (WBEM_E_NOT_FOUND, Variant.empty) }

/-- A remote object of the class `MSFT_NetFirewallRule`. -/
def ruleObject : IWbemClassObject :=
  { property := fun name =>
      if name = "__CLASS" then (S_OK, Variant.bstr "MSFT_NetFirewallRule")
      else (WBEM_E_NOT_FOUND, Variant.empty) }

/-- An error object that hands out the bag of the firewall scenario. -/
def capableError : IErrorInfo :=
  { QueryInterface := (S_OK, some firewallObject) }

/-- An error object without the property-bag capability: the interface query fails with
`E_NOINTERFACE` (`0x80004002`). -/
def incapableError : IErrorInfo :=
  { QueryInterface := (0x80004002 - 0x100000000, none) }

/-! ## The constructors, as tables -/

namespace WmiException

/-- The four constructors that take a remote object pointer, over one list of arguments
(slot, code, message, location, copy flag, object pointer); each uses its own arguments. -/
def with_object :
    List (ErrorSlot → HRESULT → LPCWSTR → LPCWSTR → Bool → Option IWbemClassObject →
      WmiException) :=
  [fun slot code _ _ _ obj => (ctor_code_class slot code obj).1,
   fun slot _ message _ copy obj => (ctor_message_class slot message obj copy).1,
   fun slot code message _ copy obj => (ctor_code_class_message slot code obj message copy).1,
   fun slot code message location copy obj =>
     (ctor_code_class_message_location slot code obj message location copy).1]

/-- The five constructors that take no remote object pointer, over one list of arguments
(slot, code, message, location, copy flag); each uses its own arguments. -/
def without_object :
    List (ErrorSlot → HRESULT → LPCWSTR → LPCWSTR → Bool → WmiException) :=
  [fun slot _ _ _ _ => (ctor_default slot).1,
   fun slot code _ _ _ => (ctor_code slot code).1,
   fun slot _ message _ copy => (ctor_message slot message copy).1,
   fun slot code message _ copy => (ctor_code_message slot code message copy).1,
   fun slot code message location copy =>
     (ctor_code_message_location slot code message location copy).1]

end WmiException

/-- An exception raised for an object of the class `MSFT_NetFirewallRule` while the error
slot held an error object with a bag. -/
def ruleException : WmiException :=
  (WmiException.ctor_code_class (some capableError) E_FAIL (some ruleObject)).1

/-! ## The class name as an allocated string -/

/-- The strings held by the `BSTR` allocator, by address. -/
abbrev BstrHeap := Nat → Option String

/-- The string at an address (empty where nothing is allocated). -/
def BstrHeap.read (heap : BstrHeap) (a : Nat) : String :=
  (heap a).getD ""

/-- `SysAllocString(psz)`: the pointer returned and the heap afterwards. `block` is the
block the allocator provides for the copy, `none` when it has no memory, in which case the
null pointer is returned. -/
def SysAllocString (heap : BstrHeap) (block : Option Nat) (psz : String) :
    Option Nat × BstrHeap :=
  match block with
  | some a => (some a, fun b => if b = a then some psz else heap b)
  | none => (none, heap)

/-- `SysFreeString(bstr)`: the heap afterwards; the null pointer is accepted. -/
def SysFreeString (heap : BstrHeap) (bstr : Option Nat) : BstrHeap :=
  match bstr with
  | some a => fun b => if b = a then none else heap b
  | none => heap

namespace WmiException

/-- The member `className` of the new object of the copy constructor, as a pointer, and the
heap afterwards: `if (e.className != nullptr) className = ::SysAllocString(e.className)`. -/
def copy_className (heap : BstrHeap) (block : Option Nat) (e_className : Option Nat) :
    Option Nat × BstrHeap :=
  match e_className with
  | some p => SysAllocString heap block (heap.read p)
  | none => (none, heap)

/-- The destructor, `::SysFreeString(className)`: the heap afterwards. -/
def destroy (heap : BstrHeap) (className : Option Nat) : BstrHeap :=
  SysFreeString heap className

/-- `class_w()` for a class name held as a pointer. -/
def class_w_bstr (heap : BstrHeap) (className : Option Nat) : String :=
  match className with
  | none => ""
  | some p => heap.read p

end WmiException

/-- A heap holding the class name `MSFT_NetFirewallRule` at address `0` and nothing else. -/
def ruleHeap : BstrHeap :=
  fun a => if a = 0 then some "MSFT_NetFirewallRule" else none

/-! ## Lemmas on `get_parameter_value` -/

theorem WBEM_E_NOT_FOUND_neg : WBEM_E_NOT_FOUND < 0 := by decide

theorem get_parameter_value_of_no_failure {T : Type} (self : WmiErrorInfo) (slot : ErrorSlot)
    (retrieve : Variant → T) (name : String) (value : T)
    (h : self.interop_failure name = false) :
    self.get_parameter_value slot retrieve name value
      = Except.ok (present (self.queried name),
          if present (self.queried name) then retrieve (self.queried name) else value) := by
  unfold WmiErrorInfo.get_parameter_value
  cases hs : self.error_info with
  | none => simp [WmiErrorInfo.queried, hs, present, ComVariant.is_empty]
  | some obj =>
    simp only [WmiErrorInfo.interop_failure, hs] at h
    simp only [IWbemClassObject.Get, WmiErrorInfo.queried, hs]
    by_cases hf : FAILED (obj.property name).1 = true
    · simp only [hf, if_true] at h ⊢
      simp only [h, Bool.false_eq_true, if_false]
      simp [present, ComVariant.is_empty]
    · simp only [hf, Bool.false_eq_true, if_false, Bool.false_and]
      simp only [present]
      by_cases hp : (!ComVariant.is_empty (obj.property name).2
          && !ComVariant.is_null (obj.property name).2) = true
      · rw [if_pos hp, if_pos hp, hp]
      · rw [if_neg hp, if_neg hp]
        rw [Bool.not_eq_true] at hp
        rw [hp]

theorem get_parameter_value_of_failure {T : Type} (obj : IWbemClassObject) (slot : ErrorSlot)
    (retrieve : Variant → T) (name : String) (value : T)
    (h : WmiErrorInfo.interop_failure { error_info := some obj } name = true) :
    WmiErrorInfo.get_parameter_value { error_info := some obj } slot retrieve name value
      = Except.error (WmiException.ctor_code_class_message_location slot (obj.property name).1
          (some obj) { text := "IWbemClassObject::Get", storage := Storage.static }
          { text := _snwprintf_s 128 name, storage := Storage.automatic } false).1 := by
  simp only [WmiErrorInfo.interop_failure, Bool.and_eq_true] at h
  simp [WmiErrorInfo.get_parameter_value, IWbemClassObject.Get, h.1, h.2]

theorem accessor_eq (f : Field) (self : WmiErrorInfo) (slot : ErrorSlot) (out : f.kind.Out) :
    f.accessor self slot out
      = self.get_parameter_value slot f.kind.retrieve f.name f.reset := by
  cases f <;> rfl

/-! ## Lemmas on the rendering of integers -/

theorem xtow_digit_eq_digitChar (d : Nat) (h : d < 10) : xtow_digit d = Nat.digitChar d := by
  interval_cases d <;> rfl

theorem xtow_loop_acc (radix room val : Nat) (buf : List Char) :
    xtow_loop radix room val buf = buf ++ xtow_loop radix room val [] := by
  induction room generalizing val buf with
  | zero => simp [xtow_loop]
  | succ room ih =>
    simp only [xtow_loop, List.nil_append]
    split
    · rw [ih (val / radix) (buf ++ [xtow_digit (val % radix)]),
        ih (val / radix) [xtow_digit (val % radix)], List.append_assoc]
    · rfl

theorem toDigitsCore_eq_xtow_loop (fuel val : Nat) (ds : List Char) :
    Nat.toDigitsCore 10 fuel val ds = (xtow_loop 10 fuel val []).reverse ++ ds := by
  induction fuel generalizing val ds with
  | zero => simp [Nat.toDigitsCore, xtow_loop]
  | succ fuel ih =>
    have hd : xtow_digit (val % 10) = Nat.digitChar (val % 10) :=
      xtow_digit_eq_digitChar _ (Nat.mod_lt _ (by decide))
    simp only [Nat.toDigitsCore, xtow_loop, List.nil_append]
    by_cases h0 : val / 10 = 0
    · simp [h0, hd]
    · have hpos : val / 10 > 0 := Nat.pos_of_ne_zero h0
      rw [if_neg h0, if_pos hpos, ih, xtow_loop_acc 10 fuel (val / 10) [xtow_digit (val % 10)]]
      simp [hd]

theorem toDigitsCore_fuel (f g val : Nat) (ds : List Char) (hf : val < 10 ^ f) (hg : val < 10 ^ g)
    (hf0 : 0 < f) (hg0 : 0 < g) :
    Nat.toDigitsCore 10 f val ds = Nat.toDigitsCore 10 g val ds := by
  induction f generalizing g val ds with
  | zero => exact absurd hf0 (by decide)
  | succ f ih =>
    obtain ⟨g, rfl⟩ : ∃ k, g = k + 1 := ⟨g - 1, by omega⟩
    simp only [Nat.toDigitsCore]
    by_cases h0 : val / 10 = 0
    · simp [h0]
    · rw [if_neg h0, if_neg h0]
      have h1 : val / 10 < 10 ^ f := by
        rw [Nat.div_lt_iff_lt_mul (by decide)]
        rw [pow_succ] at hf
        exact hf
      have h2 : val / 10 < 10 ^ g := by
        rw [Nat.div_lt_iff_lt_mul (by decide)]
        rw [pow_succ] at hg
        exact hg
      have hf1 : 0 < f := by
        rcases Nat.eq_zero_or_pos f with h | h
        · subst h
          simp at h1
          exact absurd h1 h0
        · exact h
      have hg1 : 0 < g := by
        rcases Nat.eq_zero_or_pos g with h | h
        · subst h
          simp at h2
          exact absurd h2 h0
        · exact h
      exact ih g (val / 10) _ h1 h2 hf1 hg1

theorem xtow_loop_length (room val k : Nat) (hv : val < 10 ^ k) (hk : 0 < k) :
    (xtow_loop 10 room val []).length ≤ k := by
  induction room generalizing val k with
  | zero => simp [xtow_loop]
  | succ room ih =>
    simp only [xtow_loop, List.nil_append]
    split
    · rename_i hpos
      obtain ⟨k, rfl⟩ : ∃ j, k = j + 1 := ⟨k - 1, by omega⟩
      have h1 : val / 10 < 10 ^ k := by
        rw [Nat.div_lt_iff_lt_mul (by decide)]
        rw [pow_succ] at hv
        exact hv
      have hk1 : 0 < k := by
        rcases Nat.eq_zero_or_pos k with h | h
        · subst h
          simp at h1
          omega
        · exact h
      rw [xtow_loop_acc]
      have := ih (val / 10) k h1 hk1
      simp only [List.length_append, List.length_singleton]
      omega
    · simpa using hk

theorem xtow_loop_reverse_eq_toDigits (room val : Nat) (hv : val < 10 ^ room) (hr : 0 < room) :
    (xtow_loop 10 room val []).reverse = Nat.toDigits 10 val := by
  have h := toDigitsCore_eq_xtow_loop room val []
  rw [List.append_nil] at h
  rw [← h, Nat.toDigits]
  refine toDigitsCore_fuel room (val + 1) val [] hv ?_ hr (Nat.succ_pos _)
  exact lt_of_lt_of_le (Nat.lt_pow_self (by decide) val) (Nat.pow_le_pow_right (by decide) (by omega))

theorem xtow_s_nonneg (val : Nat) (hv : val < 2 ^ 32) :
    xtow_s val 32 10 false = (0, Nat.repr val) ∧ (Nat.repr val).length ≤ 10 := by
  have hv10 : val < 10 ^ 10 := lt_of_lt_of_le hv (by norm_num)
  have hlen := xtow_loop_length 32 val 10 hv10 (by decide)
  have hrev := xtow_loop_reverse_eq_toDigits 32 val (lt_of_lt_of_le hv (by norm_num)) (by decide)
  have hrepr : Nat.repr val = String.mk (xtow_loop 10 32 val []).reverse := by
    rw [hrev]
    rfl
  constructor
  · have hlt : ¬ (32 ≤ (xtow_loop 10 32 val []).length) := by omega
    simp [xtow_s, hlt, hrepr]
  · rw [hrepr]
    simpa [String.length] using hlen

theorem xtow_s_neg (val m : Nat) (hm : 0 < m) (hm2 : m ≤ 2 ^ 31) (hval : val = 2 ^ 32 - m) :
    xtow_s val 32 10 true = (0, "-" ++ Nat.repr m) ∧ ("-" ++ Nat.repr m).length ≤ 11 := by
  have hm10 : m < 10 ^ 10 := lt_of_le_of_lt hm2 (by norm_num)
  have hlen := xtow_loop_length 31 m 10 hm10 (by decide)
  have hrev := xtow_loop_reverse_eq_toDigits 31 m (lt_of_le_of_lt hm2 (by norm_num)) (by decide)
  have hrepr : Nat.repr m = String.mk (xtow_loop 10 31 m []).reverse := by
    rw [hrev]
    rfl
  have hvalm : (2 ^ 32 - val) % 2 ^ 32 = m := by
    subst hval
    omega
  have hstr : "-" ++ Nat.repr m = String.mk ('-' :: (xtow_loop 10 31 m []).reverse) := by
    rw [hrepr]
    rfl
  constructor
  · have hlt : ¬ (32 ≤ (xtow_loop 10 31 m []).length + 1) := by omega
    rw [hstr]
    simp only [xtow_s]
    rw [hvalm, xtow_loop_acc]
    simp [hlt]
  · rw [hstr]
    simp only [String.length, List.length_cons, List.length_reverse]
    omega

theorem terminate31_of_length_le (s : String) (h : s.length ≤ 31) : terminate31 s = s := by
  cases s with
  | mk data =>
    simp only [String.length] at h
    simp [terminate31, List.take_of_length_le h]

/-- Within the range of `int` the runtime conversion into a buffer of 32 characters succeeds,
gives the signed base-10 numeral, and the terminator written at index 31 cuts nothing. -/
theorem _itow_s_eq_toString (i : Int) (hlo : -2 ^ 31 ≤ i) (hhi : i < 2 ^ 31) :
    _itow_s i 32 10 = (0, toString i) ∧ terminate31 (toString i) = toString i := by
  cases i with
  | ofNat n =>
    have hn : n < 2 ^ 31 := by
      have : (n : Int) < 2 ^ 31 := hhi
      exact_mod_cast this
    have hmod : (((Int.ofNat n) % 2 ^ 32).toNat) = n := by
      show ((n : Int) % 2 ^ 32).toNat = n
      omega
    have hx := xtow_s_nonneg n (by omega)
    have hts : toString (Int.ofNat n) = Nat.repr n := rfl
    have hnn : ¬ (Int.ofNat n < 0) := by simp
    constructor
    · simp only [_itow_s, hnn, and_false, if_false, hmod, hx.1, hts]
    · rw [hts]
      exact terminate31_of_length_le _ (by have := hx.2; omega)
  | negSucc n =>
    have hn : n + 1 ≤ 2 ^ 31 := by
      have : -(2 : Int) ^ 31 ≤ Int.negSucc n := hlo
      rw [Int.negSucc_eq] at this
      omega
    have hmod : (((Int.negSucc n) % 2 ^ 32).toNat) = 2 ^ 32 - (n + 1) := by
      rw [Int.negSucc_eq]
      omega
    have hx := xtow_s_neg (2 ^ 32 - (n + 1)) (n + 1) (by omega) hn rfl
    have hts : toString (Int.negSucc n) = "-" ++ Nat.repr (n + 1) := rfl
    have hneg : Int.negSucc n < 0 := Int.negSucc_lt_zero n
    constructor
    · simp only [_itow_s, hneg, and_self, if_true, hmod, hx.1, hts]
    · rw [hts]
      exact terminate31_of_length_le _ (by have := hx.2; omega)

theorem int_of_uint_range (v : Nat) : -2 ^ 31 ≤ int_of_uint v ∧ int_of_uint v < 2 ^ 31 := by
  unfold int_of_uint
  split <;> constructor <;> omega

theorem _itow_s_uint (v : Nat) :
    _itow_s (int_of_uint v) 32 10 = (0, toString (int_of_uint v)) :=
  (_itow_s_eq_toString _ (int_of_uint_range v).1 (int_of_uint_range v).2).1

theorem terminate31_uint (v : Nat) :
    terminate31 (toString (int_of_uint v)) = toString (int_of_uint v) :=
  (_itow_s_eq_toString _ (int_of_uint_range v).1 (int_of_uint_range v).2).2

theorem int_of_ushort_range (v : Nat) : -2 ^ 31 ≤ int_of_ushort v ∧ int_of_ushort v < 2 ^ 31 := by
  unfold int_of_ushort
  constructor <;> omega

theorem toString_int_of_ushort (v : Nat) : toString (int_of_ushort v) = toString (v % 2 ^ 16) :=
  rfl

theorem _itow_s_ushort (v : Nat) :
    _itow_s (int_of_ushort v) 32 10 = (0, toString (v % 2 ^ 16)) := by
  rw [← toString_int_of_ushort]
  exact (_itow_s_eq_toString _ (int_of_ushort_range v).1 (int_of_ushort_range v).2).1

theorem terminate31_ushort (v : Nat) :
    terminate31 (toString (v % 2 ^ 16)) = toString (v % 2 ^ 16) := by
  rw [← toString_int_of_ushort]
  exact (_itow_s_eq_toString _ (int_of_ushort_range v).1 (int_of_ushort_range v).2).2

theorem retrieve_uint_lt (var : Variant) : ComVariant.retrieve_uint var < 2 ^ 32 := by
  cases var <;> simp [ComVariant.retrieve_uint]
  exact Nat.mod_lt _ (by decide)

theorem retrieve_ushort_lt (var : Variant) : ComVariant.retrieve_ushort var < 2 ^ 16 := by
  cases var <;> simp [ComVariant.retrieve_ushort]
  exact Nat.mod_lt _ (by decide)

theorem retrieve_ushort_mod (var : Variant) :
    ComVariant.retrieve_ushort var % 2 ^ 16 = ComVariant.retrieve_ushort var :=
  Nat.mod_eq_of_lt (retrieve_ushort_lt var)

theorem toString_int_of_uint_eq (v : Nat) (h : v < 2 ^ 32) :
    toString (int_of_uint v) = written_uint v := by
  have hm : v % 2 ^ 32 = v := Nat.mod_eq_of_lt h
  unfold written_uint
  by_cases hv : v < 2 ^ 31
  · have hi : int_of_uint v = Int.ofNat v := by
      unfold int_of_uint
      rw [hm, if_pos hv]
      rfl
    rw [if_pos hv, hi]
    rfl
  · have hi : int_of_uint v = Int.negSucc (2 ^ 32 - v - 1) := by
      unfold int_of_uint
      rw [hm, if_neg hv, Int.negSucc_eq]
      omega
    have hk : 2 ^ 32 - v - 1 + 1 = 2 ^ 32 - v := by omega
    rw [if_neg hv, hi, ← hk]
    rfl

theorem toString_int_of_uint_retrieve (var : Variant) :
    toString (int_of_uint (ComVariant.retrieve_uint var))
      = written_uint (ComVariant.retrieve_uint var) :=
  toString_int_of_uint_eq _ (retrieve_uint_lt var)

/-! ## Lemmas on the report builders -/

theorem ok_bind {ε α β : Type} (a : α) (f : α → Except ε β) : (Except.ok a >>= f) = f a :=
  rfl

theorem error_bind {ε α β : Type} (e : ε) (f : α → Except ε β) :
    ((Except.error e : Except ε α) >>= f) = Except.error e :=
  rfl

theorem push_newline (s : String) : s.push (Char.ofNat 10) = s ++ "\n" := by
  cases s
  rfl

theorem foldl_append_acc (acc : String) (l : List String) :
    l.foldl (fun r s => r ++ s) acc = acc ++ l.foldl (fun r s => r ++ s) "" := by
  induction l generalizing acc with
  | nil => simp
  | cons x xs ih =>
    rw [List.foldl_cons, List.foldl_cons, ih (acc ++ x), ih ("" ++ x)]
    simp [String.append_assoc]

theorem join_nil : String.join [] = "" :=
  rfl

theorem join_cons (x : String) (xs : List String) :
    String.join (x :: xs) = x ++ String.join xs := by
  unfold String.join
  rw [List.foldl_cons, foldl_append_acc]
  simp

theorem for_each_append_eq (wsprint : String) (vsTemp : List String) :
    WmiErrorInfo.for_each_append wsprint vsTemp
      = wsprint ++ String.join (vsTemp.map (fun element => "\n\t" ++ element)) := by
  unfold WmiErrorInfo.for_each_append
  induction vsTemp generalizing wsprint with
  | nil => simp [String.join]
  | cons x xs ih =>
    rw [List.foldl_cons, ih, List.map_cons, join_cons]
    simp only [String.append_assoc]

theorem step_text (c : Bool) (w a x old : String) :
    (if c = true then (w ++ a) ++ (if c = true then x else old) else w)
      = w ++ (if c = true then a ++ x else "") := by
  cases c <;> simp [String.append_assoc]

theorem step_uint (c : Bool) (w a : String) (x old : Nat) :
    (if c = true then (w ++ a) ++ toString (int_of_uint (if c = true then x else old)) else w)
      = w ++ (if c = true then a ++ toString (int_of_uint x) else "") := by
  cases c <;> simp [String.append_assoc]

theorem step_ushort (c : Bool) (w a : String) (x old : Nat) :
    (if c = true then (w ++ a) ++ toString ((if c = true then x else old) % 2 ^ 16) else w)
      = w ++ (if c = true then a ++ toString (x % 2 ^ 16) else "") := by
  cases c <;> simp [String.append_assoc]

theorem step_vector (c : Bool) (w a : String) (x old : List String) :
    (if c = true then WmiErrorInfo.for_each_append (w ++ a) (if c = true then x else old) else w)
      = w ++ (if c = true then
          a ++ String.join (x.map (fun element => "\n\t" ++ element)) else "") := by
  cases c <;> simp [String.append_assoc, for_each_append_eq]

/-- Without an interop failure among its five properties, `write_ExtendedStatus` returns the
header, the lines of the properties present, in schema order, and a newline. -/
theorem write_ExtendedStatus_eq (self : WmiErrorInfo) (slot : ErrorSlot)
    (h1 : self.interop_failure "ProviderName" = false)
    (h2 : self.interop_failure "Operation" = false)
    (h3 : self.interop_failure "ParameterInfo" = false)
    (h4 : self.interop_failure "Description" = false)
    (h5 : self.interop_failure "StatusCode" = false) :
    self.write_ExtendedStatus slot
      = Except.ok ("__ExtendedStatus information:"
          ++ self.textLine "ProviderName" ++ self.textLine "Operation"
          ++ self.textLine "ParameterInfo" ++ self.textLine "Description"
          ++ self.uintLine "StatusCode" ++ "\n") := by
  have e1 : "\n\t" ++ "ProviderName" ++ ": " = "\n\tProviderName: " := by decide
  have e2 : "\n\t" ++ "Operation" ++ ": " = "\n\tOperation: " := by decide
  have e3 : "\n\t" ++ "ParameterInfo" ++ ": " = "\n\tParameterInfo: " := by decide
  have e4 : "\n\t" ++ "Description" ++ ": " = "\n\tDescription: " := by decide
  have e5 : "\n\t" ++ "StatusCode" ++ ": " = "\n\tStatusCode: " := by decide
  simp only [WmiErrorInfo.write_ExtendedStatus,
    get_parameter_value_of_no_failure self _ _ _ _ h1,
    get_parameter_value_of_no_failure self _ _ _ _ h2,
    get_parameter_value_of_no_failure self _ _ _ _ h3,
    get_parameter_value_of_no_failure self _ _ _ _ h4,
    get_parameter_value_of_no_failure self _ _ _ _ h5,
    ok_bind, _itow_s_uint, terminate31_uint, if_true, step_text, step_uint, push_newline,
    toString_int_of_uint_retrieve, WmiErrorInfo.textLine, WmiErrorInfo.uintLine,
    e1, e2, e3, e4, e5]
  rfl

/-- Without an interop failure among its fifteen properties, `write_CIMError` returns the
header, the lines of the properties present, in schema order, and a newline. -/
theorem write_CIMError_eq (self : WmiErrorInfo) (slot : ErrorSlot)
    (h1 : self.interop_failure "ErrorType" = false)
    (h2 : self.interop_failure "OtherErrorType" = false)
    (h3 : self.interop_failure "OwningEntity" = false)
    (h4 : self.interop_failure "MessageID" = false)
    (h5 : self.interop_failure "Message" = false)
    (h6 : self.interop_failure "MessageArguments" = false)
    (h7 : self.interop_failure "PerceivedSeverity" = false)
    (h8 : self.interop_failure "ProbableCause" = false)
    (h9 : self.interop_failure "ProbableCauseDescription" = false)
    (h10 : self.interop_failure "RecommendedActions" = false)
    (h11 : self.interop_failure "ErrorSource" = false)
    (h12 : self.interop_failure "ErrorSourceFormat" = false)
    (h13 : self.interop_failure "OtherErrorSourceFormat" = false)
    (h14 : self.interop_failure "CIMStatusCode" = false)
    (h15 : self.interop_failure "CIMStatusCodeDescription" = false) :
    self.write_CIMError slot
      = Except.ok ("CIMError information:"
          ++ self.uintLine "ErrorType"
          ++ self.textLine "OtherErrorType"
          ++ self.textLine "OwningEntity"
          ++ self.textLine "MessageID"
          ++ self.textLine "Message"
          ++ self.vectorLine "MessageArguments"
          ++ self.ushortLine "PerceivedSeverity"
          ++ self.ushortLine "ProbableCause"
          ++ self.textLine "ProbableCauseDescription"
          ++ self.vectorLine "RecommendedActions"
          ++ self.textLine "ErrorSource"
          ++ self.ushortLine "ErrorSourceFormat"
          ++ self.textLine "OtherErrorSourceFormat"
          ++ self.uintLine "CIMStatusCode"
          ++ self.textLine "CIMStatusCodeDescription"
          ++ "\n") := by
  have e1 : "\n\t" ++ "ErrorType" ++ ": " = "\n\tErrorType: " := by decide
  have e2 : "\n\t" ++ "OtherErrorType" ++ ": " = "\n\tOtherErrorType: " := by decide
  have e3 : "\n\t" ++ "OwningEntity" ++ ": " = "\n\tOwningEntity: " := by decide
  have e4 : "\n\t" ++ "MessageID" ++ ": " = "\n\tMessageID: " := by decide
  have e5 : "\n\t" ++ "Message" ++ ": " = "\n\tMessage: " := by decide
  have e6 : "\n\t" ++ "MessageArguments" ++ ":" = "\n\tMessageArguments:" := by decide
  have e7 : "\n\t" ++ "PerceivedSeverity" ++ ": " = "\n\tPerceivedSeverity: " := by decide
  have e8 : "\n\t" ++ "ProbableCause" ++ ": " = "\n\tProbableCause: " := by decide
  have e9 : "\n\t" ++ "ProbableCauseDescription" ++ ": " = "\n\tProbableCauseDescription: " := by decide
  have e10 : "\n\t" ++ "RecommendedActions" ++ ":" = "\n\tRecommendedActions:" := by decide
  have e11 : "\n\t" ++ "ErrorSource" ++ ": " = "\n\tErrorSource: " := by decide
  have e12 : "\n\t" ++ "ErrorSourceFormat" ++ ": " = "\n\tErrorSourceFormat: " := by decide
  have e13 : "\n\t" ++ "OtherErrorSourceFormat" ++ ": " = "\n\tOtherErrorSourceFormat: " := by decide
  have e14 : "\n\t" ++ "CIMStatusCode" ++ ": " = "\n\tCIMStatusCode: " := by decide
  have e15 : "\n\t" ++ "CIMStatusCodeDescription" ++ ": " = "\n\tCIMStatusCodeDescription: " := by decide
  simp only [WmiErrorInfo.write_CIMError,
    get_parameter_value_of_no_failure self _ _ _ _ h1,
    get_parameter_value_of_no_failure self _ _ _ _ h2,
    get_parameter_value_of_no_failure self _ _ _ _ h3,
    get_parameter_value_of_no_failure self _ _ _ _ h4,
    get_parameter_value_of_no_failure self _ _ _ _ h5,
    get_parameter_value_of_no_failure self _ _ _ _ h6,
    get_parameter_value_of_no_failure self _ _ _ _ h7,
    get_parameter_value_of_no_failure self _ _ _ _ h8,
    get_parameter_value_of_no_failure self _ _ _ _ h9,
    get_parameter_value_of_no_failure self _ _ _ _ h10,
    get_parameter_value_of_no_failure self _ _ _ _ h11,
    get_parameter_value_of_no_failure self _ _ _ _ h12,
    get_parameter_value_of_no_failure self _ _ _ _ h13,
    get_parameter_value_of_no_failure self _ _ _ _ h14,
    get_parameter_value_of_no_failure self _ _ _ _ h15,
    ok_bind, _itow_s_uint, terminate31_uint, _itow_s_ushort, terminate31_ushort, if_true,
    step_text, step_uint, step_ushort, step_vector, push_newline, retrieve_ushort_mod,
    toString_int_of_uint_retrieve, WmiErrorInfo.textLine, WmiErrorInfo.uintLine, WmiErrorInfo.ushortLine,
    WmiErrorInfo.vectorLine, e1, e2, e3, e4, e5, e6, e7, e8, e9, e10, e11, e12, e13, e14, e15]
  rfl

theorem snwprintf_of_short (name : String) (h : name.length ≤ 113) :
    _snwprintf_s 128 name = "WmiErrorInfo::" ++ name := by
  have hl : ("WmiErrorInfo::" ++ name).toList.length ≤ 128 - 1 := by
    have h14 : "WmiErrorInfo::".length = 14 := by decide
    simp only [String.toList, String.data_append, List.length_append]
    simp only [String.length] at h h14
    omega
  simp only [_snwprintf_s, List.take_of_length_le hl]
  rfl

theorem snwprintf_field (f : Field) : _snwprintf_s 128 f.name = "WmiErrorInfo::" ++ f.name := by
  cases f <;> decide

theorem get_parameter_value_error_iff {T : Type} (self : WmiErrorInfo) (slot : ErrorSlot)
    (retrieve : Variant → T) (name : String) (value : T) :
    ((∃ e, self.get_parameter_value slot retrieve name value = Except.error e)
      ↔ self.interop_failure name = true)
    ∧ (∀ e, self.get_parameter_value slot retrieve name value = Except.error e →
        ∃ obj, self.error_info = some obj ∧ e.code = (obj.property name).1
          ∧ e.message = ExceptionString.referenced "IWbemClassObject::Get" Storage.static
          ∧ e.location
              = ExceptionString.referenced (_snwprintf_s 128 name) Storage.automatic) := by
  cases hf : self.interop_failure name with
  | false =>
    rw [get_parameter_value_of_no_failure self slot retrieve name value hf]
    simp
  | true =>
    obtain ⟨info⟩ := self
    cases info with
    | none => simp [WmiErrorInfo.interop_failure] at hf
    | some obj =>
      rw [get_parameter_value_of_failure obj slot retrieve name value hf]
      refine ⟨by simp, ?_⟩
      intro e he
      injection he with he
      subst he
      exact ⟨obj, rfl, rfl, rfl, rfl⟩

theorem interop_failure_iff (self : WmiErrorInfo) (name : String) :
    self.interop_failure name = true
      ↔ ∃ obj, self.error_info = some obj ∧ (obj.property name).1 < 0
          ∧ (obj.property name).1 ≠ WBEM_E_NOT_FOUND := by
  obtain ⟨info⟩ := self
  cases info with
  | none => simp [WmiErrorInfo.interop_failure]
  | some obj => simp [WmiErrorInfo.interop_failure, FAILED]

theorem get_parameter_value_error_uniform (self : WmiErrorInfo) (slot : ErrorSlot)
    (name : String) (h : self.interop_failure name = true) :
    ∃ e : WmiException,
      (∀ (T : Type) (retrieve : Variant → T) (value : T),
        self.get_parameter_value slot retrieve name value = Except.error e)
      ∧ ∃ obj, self.error_info = some obj ∧ e.code = (obj.property name).1
          ∧ e.location
              = ExceptionString.referenced (_snwprintf_s 128 name) Storage.automatic := by
  obtain ⟨info⟩ := self
  cases info with
  | none => simp [WmiErrorInfo.interop_failure] at h
  | some obj =>
    exact ⟨_, fun T retrieve value => get_parameter_value_of_failure obj slot retrieve name value h,
      obj, rfl, rfl, rfl⟩

/-- When `write_ExtendedStatus` returns, none of its five queries was an interop failure. -/
theorem write_ExtendedStatus_ok_no_failure (self : WmiErrorInfo) (slot : ErrorSlot) (a : String)
    (h : self.write_ExtendedStatus slot = Except.ok a) :
    ∀ f ∈ Field.extendedStatusFields, self.interop_failure f.name = false := by
  have h1 : self.interop_failure "ProviderName" = false := by
    rcases Bool.eq_false_or_eq_true (self.interop_failure "ProviderName") with hf | hf
    · exfalso
      obtain ⟨e, he, _⟩ := get_parameter_value_error_uniform self slot "ProviderName" hf
      simp only [WmiErrorInfo.write_ExtendedStatus,
        ok_bind, he, error_bind] at h
      cases h
    · exact hf
  have h2 : self.interop_failure "Operation" = false := by
    rcases Bool.eq_false_or_eq_true (self.interop_failure "Operation") with hf | hf
    · exfalso
      obtain ⟨e, he, _⟩ := get_parameter_value_error_uniform self slot "Operation" hf
      simp only [WmiErrorInfo.write_ExtendedStatus,
      get_parameter_value_of_no_failure self _ _ _ _ h1,
        ok_bind, he, error_bind] at h
      cases h
    · exact hf
  have h3 : self.interop_failure "ParameterInfo" = false := by
    rcases Bool.eq_false_or_eq_true (self.interop_failure "ParameterInfo") with hf | hf
    · exfalso
      obtain ⟨e, he, _⟩ := get_parameter_value_error_uniform self slot "ParameterInfo" hf
      simp only [WmiErrorInfo.write_ExtendedStatus,
      get_parameter_value_of_no_failure self _ _ _ _ h1,
      get_parameter_value_of_no_failure self _ _ _ _ h2,
        ok_bind, he, error_bind] at h
      cases h
    · exact hf
  have h4 : self.interop_failure "Description" = false := by
    rcases Bool.eq_false_or_eq_true (self.interop_failure "Description") with hf | hf
    · exfalso
      obtain ⟨e, he, _⟩ := get_parameter_value_error_uniform self slot "Description" hf
      simp only [WmiErrorInfo.write_ExtendedStatus,
      get_parameter_value_of_no_failure self _ _ _ _ h1,
      get_parameter_value_of_no_failure self _ _ _ _ h2,
      get_parameter_value_of_no_failure self _ _ _ _ h3,
        ok_bind, he, error_bind] at h
      cases h
    · exact hf
  have h5 : self.interop_failure "StatusCode" = false := by
    rcases Bool.eq_false_or_eq_true (self.interop_failure "StatusCode") with hf | hf
    · exfalso
      obtain ⟨e, he, _⟩ := get_parameter_value_error_uniform self slot "StatusCode" hf
      simp only [WmiErrorInfo.write_ExtendedStatus,
      get_parameter_value_of_no_failure self _ _ _ _ h1,
      get_parameter_value_of_no_failure self _ _ _ _ h2,
      get_parameter_value_of_no_failure self _ _ _ _ h3,
      get_parameter_value_of_no_failure self _ _ _ _ h4,
        ok_bind, he, error_bind] at h
      cases h
    · exact hf
  intro f hf
  simp only [Field.extendedStatusFields, List.mem_cons, List.mem_singleton, List.not_mem_nil,
    or_false] at hf
  rcases hf with rfl | rfl | rfl | rfl | rfl <;> assumption

/-- When `write_CIMError` returns, none of its fifteen queries was an interop failure. -/
theorem write_CIMError_ok_no_failure (self : WmiErrorInfo) (slot : ErrorSlot) (a : String)
    (h : self.write_CIMError slot = Except.ok a) :
    ∀ f ∈ Field.cimErrorFields, self.interop_failure f.name = false := by
  have h1 : self.interop_failure "ErrorType" = false := by
    rcases Bool.eq_false_or_eq_true (self.interop_failure "ErrorType") with hf | hf
    · exfalso
      obtain ⟨e, he, _⟩ := get_parameter_value_error_uniform self slot "ErrorType" hf
      simp only [WmiErrorInfo.write_CIMError,
        ok_bind, he, error_bind] at h
      cases h
    · exact hf
  have h2 : self.interop_failure "OtherErrorType" = false := by
    rcases Bool.eq_false_or_eq_true (self.interop_failure "OtherErrorType") with hf | hf
    · exfalso
      obtain ⟨e, he, _⟩ := get_parameter_value_error_uniform self slot "OtherErrorType" hf
      simp only [WmiErrorInfo.write_CIMError,
      get_parameter_value_of_no_failure self _ _ _ _ h1,
        ok_bind, he, error_bind] at h
      cases h
    · exact hf
  have h3 : self.interop_failure "OwningEntity" = false := by
    rcases Bool.eq_false_or_eq_true (self.interop_failure "OwningEntity") with hf | hf
    · exfalso
      obtain ⟨e, he, _⟩ := get_parameter_value_error_uniform self slot "OwningEntity" hf
      simp only [WmiErrorInfo.write_CIMError,
      get_parameter_value_of_no_failure self _ _ _ _ h1,
      get_parameter_value_of_no_failure self _ _ _ _ h2,
        ok_bind, he, error_bind] at h
      cases h
    · exact hf
  have h4 : self.interop_failure "MessageID" = false := by
    rcases Bool.eq_false_or_eq_true (self.interop_failure "MessageID") with hf | hf
    · exfalso
      obtain ⟨e, he, _⟩ := get_parameter_value_error_uniform self slot "MessageID" hf
      simp only [WmiErrorInfo.write_CIMError,
      get_parameter_value_of_no_failure self _ _ _ _ h1,
      get_parameter_value_of_no_failure self _ _ _ _ h2,
      get_parameter_value_of_no_failure self _ _ _ _ h3,
        ok_bind, he, error_bind] at h
      cases h
    · exact hf
  have h5 : self.interop_failure "Message" = false := by
    rcases Bool.eq_false_or_eq_true (self.interop_failure "Message") with hf | hf
    · exfalso
      obtain ⟨e, he, _⟩ := get_parameter_value_error_uniform self slot "Message" hf
      simp only [WmiErrorInfo.write_CIMError,
      get_parameter_value_of_no_failure self _ _ _ _ h1,
      get_parameter_value_of_no_failure self _ _ _ _ h2,
      get_parameter_value_of_no_failure self _ _ _ _ h3,
      get_parameter_value_of_no_failure self _ _ _ _ h4,
        ok_bind, he, error_bind] at h
      cases h
    · exact hf
  have h6 : self.interop_failure "MessageArguments" = false := by
    rcases Bool.eq_false_or_eq_true (self.interop_failure "MessageArguments") with hf | hf
    · exfalso
      obtain ⟨e, he, _⟩ := get_parameter_value_error_uniform self slot "MessageArguments" hf
      simp only [WmiErrorInfo.write_CIMError,
      get_parameter_value_of_no_failure self _ _ _ _ h1,
      get_parameter_value_of_no_failure self _ _ _ _ h2,
      get_parameter_value_of_no_failure self _ _ _ _ h3,
      get_parameter_value_of_no_failure self _ _ _ _ h4,
      get_parameter_value_of_no_failure self _ _ _ _ h5,
        ok_bind, he, error_bind] at h
      cases h
    · exact hf
  have h7 : self.interop_failure "PerceivedSeverity" = false := by
    rcases Bool.eq_false_or_eq_true (self.interop_failure "PerceivedSeverity") with hf | hf
    · exfalso
      obtain ⟨e, he, _⟩ := get_parameter_value_error_uniform self slot "PerceivedSeverity" hf
      simp only [WmiErrorInfo.write_CIMError,
      get_parameter_value_of_no_failure self _ _ _ _ h1,
      get_parameter_value_of_no_failure self _ _ _ _ h2,
      get_parameter_value_of_no_failure self _ _ _ _ h3,
      get_parameter_value_of_no_failure self _ _ _ _ h4,
      get_parameter_value_of_no_failure self _ _ _ _ h5,
      get_parameter_value_of_no_failure self _ _ _ _ h6,
        ok_bind, he, error_bind] at h
      cases h
    · exact hf
  have h8 : self.interop_failure "ProbableCause" = false := by
    rcases Bool.eq_false_or_eq_true (self.interop_failure "ProbableCause") with hf | hf
    · exfalso
      obtain ⟨e, he, _⟩ := get_parameter_value_error_uniform self slot "ProbableCause" hf
      simp only [WmiErrorInfo.write_CIMError,
      get_parameter_value_of_no_failure self _ _ _ _ h1,
      get_parameter_value_of_no_failure self _ _ _ _ h2,
      get_parameter_value_of_no_failure self _ _ _ _ h3,
      get_parameter_value_of_no_failure self _ _ _ _ h4,
      get_parameter_value_of_no_failure self _ _ _ _ h5,
      get_parameter_value_of_no_failure self _ _ _ _ h6,
      get_parameter_value_of_no_failure self _ _ _ _ h7,
        ok_bind, he, error_bind] at h
      cases h
    · exact hf
  have h9 : self.interop_failure "ProbableCauseDescription" = false := by
    rcases Bool.eq_false_or_eq_true (self.interop_failure "ProbableCauseDescription") with hf | hf
    · exfalso
      obtain ⟨e, he, _⟩ := get_parameter_value_error_uniform self slot "ProbableCauseDescription" hf
      simp only [WmiErrorInfo.write_CIMError,
      get_parameter_value_of_no_failure self _ _ _ _ h1,
      get_parameter_value_of_no_failure self _ _ _ _ h2,
      get_parameter_value_of_no_failure self _ _ _ _ h3,
      get_parameter_value_of_no_failure self _ _ _ _ h4,
      get_parameter_value_of_no_failure self _ _ _ _ h5,
      get_parameter_value_of_no_failure self _ _ _ _ h6,
      get_parameter_value_of_no_failure self _ _ _ _ h7,
      get_parameter_value_of_no_failure self _ _ _ _ h8,
        ok_bind, he, error_bind] at h
      cases h
    · exact hf
  have h10 : self.interop_failure "RecommendedActions" = false := by
    rcases Bool.eq_false_or_eq_true (self.interop_failure "RecommendedActions") with hf | hf
    · exfalso
      obtain ⟨e, he, _⟩ := get_parameter_value_error_uniform self slot "RecommendedActions" hf
      simp only [WmiErrorInfo.write_CIMError,
      get_parameter_value_of_no_failure self _ _ _ _ h1,
      get_parameter_value_of_no_failure self _ _ _ _ h2,
      get_parameter_value_of_no_failure self _ _ _ _ h3,
      get_parameter_value_of_no_failure self _ _ _ _ h4,
      get_parameter_value_of_no_failure self _ _ _ _ h5,
      get_parameter_value_of_no_failure self _ _ _ _ h6,
      get_parameter_value_of_no_failure self _ _ _ _ h7,
      get_parameter_value_of_no_failure self _ _ _ _ h8,
      get_parameter_value_of_no_failure self _ _ _ _ h9,
        ok_bind, he, error_bind] at h
      cases h
    · exact hf
  have h11 : self.interop_failure "ErrorSource" = false := by
    rcases Bool.eq_false_or_eq_true (self.interop_failure "ErrorSource") with hf | hf
    · exfalso
      obtain ⟨e, he, _⟩ := get_parameter_value_error_uniform self slot "ErrorSource" hf
      simp only [WmiErrorInfo.write_CIMError,
      get_parameter_value_of_no_failure self _ _ _ _ h1,
      get_parameter_value_of_no_failure self _ _ _ _ h2,
      get_parameter_value_of_no_failure self _ _ _ _ h3,
      get_parameter_value_of_no_failure self _ _ _ _ h4,
      get_parameter_value_of_no_failure self _ _ _ _ h5,
      get_parameter_value_of_no_failure self _ _ _ _ h6,
      get_parameter_value_of_no_failure self _ _ _ _ h7,
      get_parameter_value_of_no_failure self _ _ _ _ h8,
      get_parameter_value_of_no_failure self _ _ _ _ h9,
      get_parameter_value_of_no_failure self _ _ _ _ h10,
        ok_bind, he, error_bind] at h
      cases h
    · exact hf
  have h12 : self.interop_failure "ErrorSourceFormat" = false := by
    rcases Bool.eq_false_or_eq_true (self.interop_failure "ErrorSourceFormat") with hf | hf
    · exfalso
      obtain ⟨e, he, _⟩ := get_parameter_value_error_uniform self slot "ErrorSourceFormat" hf
      simp only [WmiErrorInfo.write_CIMError,
      get_parameter_value_of_no_failure self _ _ _ _ h1,
      get_parameter_value_of_no_failure self _ _ _ _ h2,
      get_parameter_value_of_no_failure self _ _ _ _ h3,
      get_parameter_value_of_no_failure self _ _ _ _ h4,
      get_parameter_value_of_no_failure self _ _ _ _ h5,
      get_parameter_value_of_no_failure self _ _ _ _ h6,
      get_parameter_value_of_no_failure self _ _ _ _ h7,
      get_parameter_value_of_no_failure self _ _ _ _ h8,
      get_parameter_value_of_no_failure self _ _ _ _ h9,
      get_parameter_value_of_no_failure self _ _ _ _ h10,
      get_parameter_value_of_no_failure self _ _ _ _ h11,
        ok_bind, he, error_bind] at h
      cases h
    · exact hf
  have h13 : self.interop_failure "OtherErrorSourceFormat" = false := by
    rcases Bool.eq_false_or_eq_true (self.interop_failure "OtherErrorSourceFormat") with hf | hf
    · exfalso
      obtain ⟨e, he, _⟩ := get_parameter_value_error_uniform self slot "OtherErrorSourceFormat" hf
      simp only [WmiErrorInfo.write_CIMError,
      get_parameter_value_of_no_failure self _ _ _ _ h1,
      get_parameter_value_of_no_failure self _ _ _ _ h2,
      get_parameter_value_of_no_failure self _ _ _ _ h3,
      get_parameter_value_of_no_failure self _ _ _ _ h4,
      get_parameter_value_of_no_failure self _ _ _ _ h5,
      get_parameter_value_of_no_failure self _ _ _ _ h6,
      get_parameter_value_of_no_failure self _ _ _ _ h7,
      get_parameter_value_of_no_failure self _ _ _ _ h8,
      get_parameter_value_of_no_failure self _ _ _ _ h9,
      get_parameter_value_of_no_failure self _ _ _ _ h10,
      get_parameter_value_of_no_failure self _ _ _ _ h11,
      get_parameter_value_of_no_failure self _ _ _ _ h12,
        ok_bind, he, error_bind] at h
      cases h
    · exact hf
  have h14 : self.interop_failure "CIMStatusCode" = false := by
    rcases Bool.eq_false_or_eq_true (self.interop_failure "CIMStatusCode") with hf | hf
    · exfalso
      obtain ⟨e, he, _⟩ := get_parameter_value_error_uniform self slot "CIMStatusCode" hf
      simp only [WmiErrorInfo.write_CIMError,
      get_parameter_value_of_no_failure self _ _ _ _ h1,
      get_parameter_value_of_no_failure self _ _ _ _ h2,
      get_parameter_value_of_no_failure self _ _ _ _ h3,
      get_parameter_value_of_no_failure self _ _ _ _ h4,
      get_parameter_value_of_no_failure self _ _ _ _ h5,
      get_parameter_value_of_no_failure self _ _ _ _ h6,
      get_parameter_value_of_no_failure self _ _ _ _ h7,
      get_parameter_value_of_no_failure self _ _ _ _ h8,
      get_parameter_value_of_no_failure self _ _ _ _ h9,
      get_parameter_value_of_no_failure self _ _ _ _ h10,
      get_parameter_value_of_no_failure self _ _ _ _ h11,
      get_parameter_value_of_no_failure self _ _ _ _ h12,
      get_parameter_value_of_no_failure self _ _ _ _ h13,
        ok_bind, he, error_bind] at h
      cases h
    · exact hf
  have h15 : self.interop_failure "CIMStatusCodeDescription" = false := by
    rcases Bool.eq_false_or_eq_true (self.interop_failure "CIMStatusCodeDescription") with hf | hf
    · exfalso
      obtain ⟨e, he, _⟩ := get_parameter_value_error_uniform self slot "CIMStatusCodeDescription" hf
      simp only [WmiErrorInfo.write_CIMError,
      get_parameter_value_of_no_failure self _ _ _ _ h1,
      get_parameter_value_of_no_failure self _ _ _ _ h2,
      get_parameter_value_of_no_failure self _ _ _ _ h3,
      get_parameter_value_of_no_failure self _ _ _ _ h4,
      get_parameter_value_of_no_failure self _ _ _ _ h5,
      get_parameter_value_of_no_failure self _ _ _ _ h6,
      get_parameter_value_of_no_failure self _ _ _ _ h7,
      get_parameter_value_of_no_failure self _ _ _ _ h8,
      get_parameter_value_of_no_failure self _ _ _ _ h9,
      get_parameter_value_of_no_failure self _ _ _ _ h10,
      get_parameter_value_of_no_failure self _ _ _ _ h11,
      get_parameter_value_of_no_failure self _ _ _ _ h12,
      get_parameter_value_of_no_failure self _ _ _ _ h13,
      get_parameter_value_of_no_failure self _ _ _ _ h14,
        ok_bind, he, error_bind] at h
      cases h
    · exact hf
  intro f hf
  simp only [Field.cimErrorFields, List.mem_cons, List.mem_singleton, List.not_mem_nil,
    or_false] at hf
  rcases hf with rfl | rfl | rfl | rfl | rfl | rfl | rfl | rfl | rfl | rfl | rfl | rfl | rfl
    | rfl | rfl <;> assumption

theorem line_eq (self : WmiErrorInfo) (f : Field) :
    Field.line self f
      = match f.kind with
        | Field.Kind.wstring => self.textLine f.name
        | Field.Kind.uint => self.uintLine f.name
        | Field.Kind.ushort => self.ushortLine f.name
        | Field.Kind.vector => self.vectorLine f.name := by
  cases f <;>
    simp only [Field.line, Field.kind, Field.Kind.tail, Field.Kind.retrieve,
      WmiErrorInfo.textLine, WmiErrorInfo.uintLine, WmiErrorInfo.ushortLine,
      WmiErrorInfo.vectorLine, String.append_assoc]

theorem write_ExtendedStatus_lines (self : WmiErrorInfo) (slot : ErrorSlot)
    (h : ∀ f ∈ Field.extendedStatusFields, self.interop_failure f.name = false) :
    self.write_ExtendedStatus slot
      = Except.ok ("__ExtendedStatus information:"
          ++ String.join (Field.extendedStatusFields.map (Field.line self)) ++ "\n") := by
  rw [write_ExtendedStatus_eq self slot
    (h Field.ProviderName (by decide)) (h Field.Operation (by decide))
    (h Field.ParameterInfo (by decide)) (h Field.Description (by decide))
    (h Field.StatusCode (by decide))]
  simp only [Field.extendedStatusFields, List.map_cons, List.map_nil, join_cons, line_eq,
    Field.kind, Field.name, join_nil, String.append_assoc, String.append_empty,
    String.empty_append]

theorem write_CIMError_lines (self : WmiErrorInfo) (slot : ErrorSlot)
    (h : ∀ f ∈ Field.cimErrorFields, self.interop_failure f.name = false) :
    self.write_CIMError slot
      = Except.ok ("CIMError information:"
          ++ String.join (Field.cimErrorFields.map (Field.line self)) ++ "\n") := by
  rw [write_CIMError_eq self slot
    (h Field.ErrorType (by decide)) (h Field.OtherErrorType (by decide))
    (h Field.OwningEntity (by decide)) (h Field.MessageID (by decide))
    (h Field.Message (by decide)) (h Field.MessageArguments (by decide))
    (h Field.PerceivedSeverity (by decide)) (h Field.ProbableCause (by decide))
    (h Field.ProbableCauseDescription (by decide)) (h Field.RecommendedActions (by decide))
    (h Field.ErrorSource (by decide)) (h Field.ErrorSourceFormat (by decide))
    (h Field.OtherErrorSourceFormat (by decide)) (h Field.CIMStatusCode (by decide))
    (h Field.CIMStatusCodeDescription (by decide))]
  simp only [Field.cimErrorFields, List.map_cons, List.map_nil, join_cons, line_eq,
    Field.kind, Field.name, join_nil, String.append_assoc, String.append_empty,
    String.empty_append]

theorem mem_report_fields (f : Field) :
    f ∈ Field.extendedStatusFields ∨ f ∈ Field.cimErrorFields := by
  cases f <;> decide

theorem error_text_lines (self : WmiErrorInfo) (slot : ErrorSlot)
    (h : ∀ f : Field, self.interop_failure f.name = false) :
    self.error_text slot
      = Except.ok ("__ExtendedStatus information:"
          ++ String.join (Field.extendedStatusFields.map (Field.line self)) ++ "\n"
          ++ "CIMError information:"
          ++ String.join (Field.cimErrorFields.map (Field.line self)) ++ "\n") := by
  simp only [WmiErrorInfo.error_text, write_ExtendedStatus_lines self slot (fun f _ => h f),
    write_CIMError_lines self slot (fun f _ => h f), ok_bind, String.append_assoc]
  rfl

theorem line_of_absent (self : WmiErrorInfo) (f : Field)
    (h : present (self.queried f.name) = false) : Field.line self f = "" := by
  simp [Field.line, h]

theorem not_found_absent (obj : IWbemClassObject) (name : String)
    (h : (obj.property name).1 = WBEM_E_NOT_FOUND) :
    WmiErrorInfo.interop_failure { error_info := some obj } name = false
      ∧ present (WmiErrorInfo.queried { error_info := some obj } name) = false := by
  constructor
  · simp [WmiErrorInfo.interop_failure, h]
  · simp [WmiErrorInfo.queried, FAILED, h, WBEM_E_NOT_FOUND_neg, present, ComVariant.is_empty]

theorem single_no_failure (n : String) (val : Variant) (name : String) :
    WmiErrorInfo.interop_failure { error_info := some (singleObject n val) } name = false := by
  by_cases h : name = n <;> simp [WmiErrorInfo.interop_failure, singleObject, h, FAILED, S_OK]

theorem single_queried (n : String) (val : Variant) (name : String) :
    WmiErrorInfo.queried { error_info := some (singleObject n val) } name
      = if name = n then val else Variant.empty := by
  by_cases h : name = n <;>
    simp [WmiErrorInfo.queried, singleObject, h, FAILED, S_OK, WBEM_E_NOT_FOUND_neg]

theorem toString_int_of_uint_small (v : Nat) (h : v < 2 ^ 31) :
    toString (int_of_uint v) = toString v := by
  have hm : v % 2 ^ 32 = v := Nat.mod_eq_of_lt (by omega)
  have hi : int_of_uint v = Int.ofNat v := by
    unfold int_of_uint
    rw [hm, if_pos h]
    rfl
  rw [hi]
  rfl

theorem toString_int_of_uint_large (v : Nat) (h1 : 2 ^ 31 ≤ v) (h2 : v < 2 ^ 32) :
    toString (int_of_uint v) = "-" ++ toString (2 ^ 32 - v) := by
  have hm : v % 2 ^ 32 = v := Nat.mod_eq_of_lt h2
  have hi : int_of_uint v = Int.negSucc (2 ^ 32 - v - 1) := by
    unfold int_of_uint
    rw [hm, if_neg (by omega), Int.negSucc_eq]
    omega
  have hk : 2 ^ 32 - v - 1 + 1 = 2 ^ 32 - v := by omega
  rw [hi, ← hk]
  rfl

/-! ## The accessors -/

/-- C1: for a bag holding a handle and each of the twenty fields, when the query of the field
succeeds with a value that is neither empty nor null the accessor returns true and its output
is that value coerced to the type of the accessor; when the query reports "not found", or
succeeds with an empty or a null value, the accessor returns false and its output is the
reset value of the accessor. -/
theorem accessor_reports_presence (f : Field) (obj : IWbemClassObject) (slot : ErrorSlot)
    (out : f.kind.Out) :
    (0 ≤ (obj.property f.name).1 → (obj.property f.name).2 ≠ Variant.empty →
      (obj.property f.name).2 ≠ Variant.null →
      f.accessor { error_info := some obj } slot out
        = Except.ok (true, f.kind.retrieve (obj.property f.name).2))
    ∧ ((obj.property f.name).1 = WBEM_E_NOT_FOUND
        ∨ (0 ≤ (obj.property f.name).1
            ∧ ((obj.property f.name).2 = Variant.empty ∨ (obj.property f.name).2 = Variant.null)) →
      f.accessor { error_info := some obj } slot out = Except.ok (false, f.reset)) := by
  rw [accessor_eq]
  constructor
  · intro hs he hn
    have hnf : ¬ (obj.property f.name).1 < 0 := not_lt.mpr hs
    have hfail : WmiErrorInfo.interop_failure { error_info := some obj } f.name = false := by
      simp [WmiErrorInfo.interop_failure, FAILED, hnf]
    rw [get_parameter_value_of_no_failure _ slot _ _ _ hfail]
    have hq : WmiErrorInfo.queried { error_info := some obj } f.name = (obj.property f.name).2 := by
      simp [WmiErrorInfo.queried, FAILED, hnf]
    have hp : present (obj.property f.name).2 = true := by
      cases hv : (obj.property f.name).2 <;> simp_all [present, ComVariant.is_empty, ComVariant.is_null]
    rw [hq, hp]
    simp
  · intro h
    rcases h with h | ⟨hs, h⟩
    · have hfail : WmiErrorInfo.interop_failure { error_info := some obj } f.name = false := by
        simp [WmiErrorInfo.interop_failure, h]
      rw [get_parameter_value_of_no_failure _ slot _ _ _ hfail]
      have hq : WmiErrorInfo.queried { error_info := some obj } f.name = Variant.empty := by
        simp [WmiErrorInfo.queried, FAILED, h, WBEM_E_NOT_FOUND_neg]
      rw [hq]
      simp [present, ComVariant.is_empty]
    · have hnf : ¬ (obj.property f.name).1 < 0 := not_lt.mpr hs
      have hfail : WmiErrorInfo.interop_failure { error_info := some obj } f.name = false := by
        simp [WmiErrorInfo.interop_failure, FAILED, hnf]
      rw [get_parameter_value_of_no_failure _ slot _ _ _ hfail]
      have hq : WmiErrorInfo.queried { error_info := some obj } f.name = (obj.property f.name).2 := by
        simp [WmiErrorInfo.queried, FAILED, hnf]
      rw [hq]
      rcases h with h | h <;> rw [h] <;> simp [present, ComVariant.is_empty, ComVariant.is_null]

/-- C1, at the bag of the firewall scenario: `StatusCode` is found and read as `5`,
`ProviderName` is found and read as the string, `Operation` is not found and reads as the
empty string. -/
theorem accessor_reports_presence_witness :
    Field.StatusCode.accessor { error_info := some firewallObject } none (77 : Nat)
        = Except.ok (true, (5 : Nat))
    ∧ Field.ProviderName.accessor { error_info := some firewallObject } none "stale"
        = Except.ok (true, "WinFirewall")
    ∧ Field.Operation.accessor { error_info := some firewallObject } none "stale"
        = Except.ok (false, "") :=
  ⟨(accessor_reports_presence Field.StatusCode firewallObject none (77 : Nat)).1
      (by decide) (by decide) (by decide),
   (accessor_reports_presence Field.ProviderName firewallObject none "stale").1
      (by decide) (by decide) (by decide),
   (accessor_reports_presence Field.Operation firewallObject none "stale").2
      (Or.inl (by decide))⟩

/-- C2: `get_parameter_value`, and with it every accessor, raises exactly when the bag holds
a handle and the query of the field returns a failure status other than "not found"; the
exception raised carries that status; a "not found" status raises nothing. The location
`WmiErrorInfo::` followed by the name of the field is written to the automatic array
`function[128]` and handed to the constructor with the copy flag `false`: the exception
holds a reference to that array, and once the throw has left `get_parameter_value` the
reference designates nothing, where the message, a string literal, stays readable. -/
theorem get_parameter_value_raises_iff {T : Type} (self : WmiErrorInfo) (slot : ErrorSlot)
    (retrieve : Variant → T) (name : String) (value : T) :
    ((∃ e, self.get_parameter_value slot retrieve name value = Except.error e)
      ↔ ∃ obj, self.error_info = some obj ∧ (obj.property name).1 < 0
          ∧ (obj.property name).1 ≠ WBEM_E_NOT_FOUND)
    ∧ (∀ e, self.get_parameter_value slot retrieve name value = Except.error e →
        ∃ obj, self.error_info = some obj ∧ e.code = (obj.property name).1
          ∧ e.location
              = ExceptionString.referenced (_snwprintf_s 128 name) Storage.automatic
          ∧ e.location.after_return = none
          ∧ e.message.after_return = some "IWbemClassObject::Get"
          ∧ (name.length ≤ 113 → e.location.text = "WmiErrorInfo::" ++ name))
    ∧ (∀ (f : Field) (out : f.kind.Out),
        ((∃ e, f.accessor self slot out = Except.error e)
          ↔ ∃ obj, self.error_info = some obj ∧ (obj.property f.name).1 < 0
              ∧ (obj.property f.name).1 ≠ WBEM_E_NOT_FOUND)
        ∧ (∀ e, f.accessor self slot out = Except.error e →
            ∃ obj, self.error_info = some obj ∧ e.code = (obj.property f.name).1
              ∧ e.location
                  = ExceptionString.referenced ("WmiErrorInfo::" ++ f.name) Storage.automatic
              ∧ e.location.after_return = none))
    ∧ (∀ obj, self.error_info = some obj → (obj.property name).1 = WBEM_E_NOT_FOUND →
        ∃ r, self.get_parameter_value slot retrieve name value = Except.ok r) := by
  refine ⟨?_, ?_, ?_, ?_⟩
  · rw [(get_parameter_value_error_iff self slot retrieve name value).1, interop_failure_iff]
  · intro e he
    obtain ⟨obj, h1, h2, h3, h4⟩ :=
      (get_parameter_value_error_iff self slot retrieve name value).2 e he
    refine ⟨obj, h1, h2, h4, ?_, ?_, ?_⟩
    · rw [h4]
      rfl
    · rw [h3]
      rfl
    · intro hlen
      rw [h4, ← snwprintf_of_short name hlen]
      rfl
  · intro f out
    rw [accessor_eq]
    constructor
    · rw [(get_parameter_value_error_iff self slot _ f.name _).1, interop_failure_iff]
    · intro e he
      obtain ⟨obj, h1, h2, _, h4⟩ := (get_parameter_value_error_iff self slot _ f.name _).2 e he
      refine ⟨obj, h1, h2, ?_, ?_⟩
      · rw [h4, snwprintf_field]
      · rw [h4]
        rfl
  · intro obj hobj hnf
    have hfail : self.interop_failure name = false := by
      simp [WmiErrorInfo.interop_failure, hobj, hnf]
    exact ⟨_, get_parameter_value_of_no_failure self slot retrieve name value hfail⟩

/-- C2, at a bag whose query of `Description` fails with `E_FAIL`: the accessor raises an
exception with that status, whose location is a reference to the automatic array that held
`WmiErrorInfo::Description` and designates nothing after the throw. -/
theorem get_parameter_value_raises_iff_witness :
    ∃ e, WmiErrorInfo.get_Description { error_info := some brokenObject } none "stale"
          = Except.error e
      ∧ e.code = E_FAIL
      ∧ e.location
          = ExceptionString.referenced "WmiErrorInfo::Description" Storage.automatic
      ∧ e.location.after_return = none := by
  have h := (get_parameter_value_raises_iff { error_info := some brokenObject } none
    ComVariant.retrieve_wstring "Description" "").2.2.1 Field.Description "stale"
  obtain ⟨e, he⟩ := h.1.mpr ⟨brokenObject, rfl, by decide, by decide⟩
  obtain ⟨obj, hobj, hcode, hloc, hdead⟩ := h.2 e he
  injection hobj with hobj
  subst hobj
  exact ⟨e, he, hcode, hloc, hdead⟩

/-- C3: a bag with no underlying handle reports no error, and each of its twenty accessors
returns false, raises nothing and leaves its output at its reset value (the empty string,
the empty sequence, or the numeric sentinel of the accessor), whatever the output held. -/
theorem no_handle_accessors :
    WmiErrorInfo.has_error { error_info := none } = false
    ∧ (∀ slot out, WmiErrorInfo.get_ProviderName { error_info := none } slot out
        = Except.ok (false, ""))
    ∧ (∀ slot out, WmiErrorInfo.get_Operation { error_info := none } slot out
        = Except.ok (false, ""))
    ∧ (∀ slot out, WmiErrorInfo.get_ParameterInfo { error_info := none } slot out
        = Except.ok (false, ""))
    ∧ (∀ slot out, WmiErrorInfo.get_Description { error_info := none } slot out
        = Except.ok (false, ""))
    ∧ (∀ slot out, WmiErrorInfo.get_StatusCode { error_info := none } slot out
        = Except.ok (false, 0xffffffff))
    ∧ (∀ slot out, WmiErrorInfo.get_ErrorType { error_info := none } slot out
        = Except.ok (false, 0xffffffff))
    ∧ (∀ slot out, WmiErrorInfo.get_OtherErrorType { error_info := none } slot out
        = Except.ok (false, ""))
    ∧ (∀ slot out, WmiErrorInfo.get_OwningEntity { error_info := none } slot out
        = Except.ok (false, ""))
    ∧ (∀ slot out, WmiErrorInfo.get_MessageID { error_info := none } slot out
        = Except.ok (false, ""))
    ∧ (∀ slot out, WmiErrorInfo.get_Message { error_info := none } slot out
        = Except.ok (false, ""))
    ∧ (∀ slot out, WmiErrorInfo.get_MessageArguments { error_info := none } slot out
        = Except.ok (false, []))
    ∧ (∀ slot out, WmiErrorInfo.get_PerceivedSeverity { error_info := none } slot out
        = Except.ok (false, 0xffff))
    ∧ (∀ slot out, WmiErrorInfo.get_ProbableCause { error_info := none } slot out
        = Except.ok (false, 0xffff))
    ∧ (∀ slot out, WmiErrorInfo.get_ProbableCauseDescription { error_info := none } slot out
        = Except.ok (false, ""))
    ∧ (∀ slot out, WmiErrorInfo.get_RecommendedActions { error_info := none } slot out
        = Except.ok (false, []))
    ∧ (∀ slot out, WmiErrorInfo.get_ErrorSource { error_info := none } slot out
        = Except.ok (false, ""))
    ∧ (∀ slot out, WmiErrorInfo.get_ErrorSourceFormat { error_info := none } slot out
        = Except.ok (false, 0xffff))
    ∧ (∀ slot out, WmiErrorInfo.get_OtherErrorSourceFormat { error_info := none } slot out
        = Except.ok (false, ""))
    ∧ (∀ slot out, WmiErrorInfo.get_CIMStatusCode { error_info := none } slot out
        = Except.ok (false, 0))
    ∧ (∀ slot out, WmiErrorInfo.get_CIMStatusCodeDescription { error_info := none } slot out
        = Except.ok (false, "")) :=
  ⟨rfl, fun _ _ => rfl, fun _ _ => rfl, fun _ _ => rfl, fun _ _ => rfl, fun _ _ => rfl, fun _ _ => rfl, fun _ _ => rfl, fun _ _ => rfl, fun _ _ => rfl, fun _ _ => rfl, fun _ _ => rfl, fun _ _ => rfl, fun _ _ => rfl, fun _ _ => rfl, fun _ _ => rfl, fun _ _ => rfl, fun _ _ => rfl, fun _ _ => rfl, fun _ _ => rfl, fun _ _ => rfl⟩

/-! ## The report -/

/-- C4: for a bag with no underlying handle, and for a bag holding a handle in which all
twenty fields are reported "not found", `error_text` returns exactly the two section headers,
each followed by a newline, and no field line. -/
theorem error_text_headers_only :
    (∀ slot, WmiErrorInfo.error_text { error_info := none } slot
        = Except.ok "__ExtendedStatus information:\nCIMError information:\n")
    ∧ (∀ obj slot, (∀ f : Field, (obj.property f.name).1 = WBEM_E_NOT_FOUND) →
        WmiErrorInfo.error_text { error_info := some obj } slot
          = Except.ok "__ExtendedStatus information:\nCIMError information:\n") := by
  refine ⟨fun _ => rfl, ?_⟩
  intro obj slot h
  have hl : ∀ f, Field.line { error_info := some obj } f = "" :=
    fun f => line_of_absent _ f (not_found_absent obj f.name (h f)).2
  rw [error_text_lines _ slot (fun f => (not_found_absent obj f.name (h f)).1)]
  simp only [Field.extendedStatusFields, Field.cimErrorFields, List.map_cons, List.map_nil, hl,
    join_cons, join_nil, String.append_empty, String.empty_append]
  rfl

/-- C4, at the bag in which every property is reported "not found". -/
theorem error_text_headers_only_witness :
    WmiErrorInfo.error_text { error_info := some emptyObject } none
      = Except.ok "__ExtendedStatus information:\nCIMError information:\n" :=
  error_text_headers_only.2 emptyObject none (fun _ => rfl)

/-- C5: without an interop failure among its five queries `write_ExtendedStatus` returns the
header, then for ProviderName, Operation, ParameterInfo, Description and StatusCode, in that
order and when present, newline, tab, the name, a colon, a blank and the text of the value
(for StatusCode the text the runtime writes for the number passed as an `int`), then one
newline. For the bag of the firewall scenario the whole report is the text of the scenario.
For the bag holding `StatusCode = 0x80041001` the line of the status code carries the
negative numeral `-2147217407`, not the numeral of the unsigned value. -/
theorem write_ExtendedStatus_layout :
    (∀ (self : WmiErrorInfo) (slot : ErrorSlot),
      (∀ f ∈ Field.extendedStatusFields, self.interop_failure f.name = false) →
      self.write_ExtendedStatus slot
        = Except.ok ("__ExtendedStatus information:"
            ++ self.textLine "ProviderName" ++ self.textLine "Operation"
            ++ self.textLine "ParameterInfo" ++ self.textLine "Description"
            ++ self.uintLine "StatusCode" ++ "\n"))
    ∧ (∀ slot, WmiErrorInfo.error_text { error_info := some firewallObject } slot
        = Except.ok ("__ExtendedStatus information:\n\tProviderName: WinFirewall\n\tStatusCode: 5\n"
            ++ "CIMError information:\n"))
    ∧ (∀ slot, WmiErrorInfo.error_text { error_info := some failedStatusObject } slot
        = Except.ok ("__ExtendedStatus information:\n\tStatusCode: -2147217407\n"
            ++ "CIMError information:\n")) := by
  refine ⟨?_, fun _ => rfl, fun _ => rfl⟩
  intro self slot h
  exact write_ExtendedStatus_eq self slot
    (h Field.ProviderName (by decide)) (h Field.Operation (by decide))
    (h Field.ParameterInfo (by decide)) (h Field.Description (by decide))
    (h Field.StatusCode (by decide))

/-- C5, at the bag of the firewall scenario: the closed form of the section applies to it and
the section it gives is the text of the scenario. -/
theorem write_ExtendedStatus_layout_witness :
    WmiErrorInfo.write_ExtendedStatus { error_info := some firewallObject } none
      = Except.ok "__ExtendedStatus information:\n\tProviderName: WinFirewall\n\tStatusCode: 5\n" :=
  (write_ExtendedStatus_layout.1 { error_info := some firewallObject } none
    (by decide)).trans rfl

/-- C6: without an interop failure among its fifteen queries `write_CIMError` returns the
header, then the lines of the fields present in the order ErrorType, OtherErrorType,
OwningEntity, MessageID, Message, MessageArguments, PerceivedSeverity, ProbableCause,
ProbableCauseDescription, RecommendedActions, ErrorSource, ErrorSourceFormat,
OtherErrorSourceFormat, CIMStatusCode, CIMStatusCodeDescription, then one newline. A sequence
found with the elements `a` is written as newline, tab, the name and a colon, followed by
newline, tab and the element for each element in order, with no label per element; a field
that is not present contributes nothing. `MessageArguments = ["A", "B"]` alone gives the
section of the scenario, and an empty sequence gives the label line alone. The lines of
ErrorType and CIMStatusCode carry the numeral of the value found only below `2 ^ 31`: for
`ErrorType = 0xffffffff` and `CIMStatusCode = 0x80000000` the section shows `-1` and
`-2147483648`, where the lines of the values found are those of `4294967295` and
`2147483648`. -/
theorem write_CIMError_layout :
    (∀ (self : WmiErrorInfo) (slot : ErrorSlot),
      (∀ f ∈ Field.cimErrorFields, self.interop_failure f.name = false) →
      self.write_CIMError slot
        = Except.ok ("CIMError information:"
            ++ self.uintLine "ErrorType" ++ self.textLine "OtherErrorType"
            ++ self.textLine "OwningEntity" ++ self.textLine "MessageID"
            ++ self.textLine "Message" ++ self.vectorLine "MessageArguments"
            ++ self.ushortLine "PerceivedSeverity" ++ self.ushortLine "ProbableCause"
            ++ self.textLine "ProbableCauseDescription" ++ self.vectorLine "RecommendedActions"
            ++ self.textLine "ErrorSource" ++ self.ushortLine "ErrorSourceFormat"
            ++ self.textLine "OtherErrorSourceFormat" ++ self.uintLine "CIMStatusCode"
            ++ self.textLine "CIMStatusCodeDescription" ++ "\n"))
    ∧ (∀ (obj : IWbemClassObject) (name : String) (hr : HRESULT) (a : List String),
        0 ≤ hr → obj.property name = (hr, Variant.bstrArray a) →
        WmiErrorInfo.vectorLine { error_info := some obj } name
          = "\n\t" ++ name ++ ":" ++ String.join (a.map (fun element => "\n\t" ++ element)))
    ∧ (∀ (self : WmiErrorInfo) (name : String), present (self.queried name) = false →
        self.textLine name = "" ∧ self.uintLine name = "" ∧ self.ushortLine name = ""
          ∧ self.vectorLine name = "")
    ∧ (∀ slot, WmiErrorInfo.write_CIMError { error_info := some argumentsObject } slot
        = Except.ok "CIMError information:\n\tMessageArguments:\n\tA\n\tB\n")
    ∧ (∀ slot, WmiErrorInfo.write_CIMError
          { error_info := some (singleObject "MessageArguments" (Variant.bstrArray [])) } slot
        = Except.ok "CIMError information:\n\tMessageArguments:\n")
    ∧ (∀ slot, WmiErrorInfo.write_CIMError { error_info := some wideCodesObject } slot
        = Except.ok "CIMError information:\n\tErrorType: -1\n\tCIMStatusCode: -2147483648\n")
    ∧ WmiErrorInfo.numeralLine { error_info := some wideCodesObject } "ErrorType"
        = "\n\tErrorType: 4294967295"
    ∧ WmiErrorInfo.numeralLine { error_info := some wideCodesObject } "CIMStatusCode"
        = "\n\tCIMStatusCode: 2147483648"
    ∧ (∀ (self : WmiErrorInfo) (name : String),
        ComVariant.retrieve_uint (self.queried name) < 2 ^ 31 →
        self.uintLine name = self.numeralLine name) := by
  refine ⟨?_, ?_, ?_, fun _ => rfl, fun _ => rfl, fun _ => rfl, by decide, by decide, ?_⟩
  rotate_left 3
  · intro self name hlt
    unfold WmiErrorInfo.uintLine WmiErrorInfo.numeralLine written_uint
    rw [if_pos hlt]
  · intro self slot h
    exact write_CIMError_eq self slot
      (h Field.ErrorType (by decide)) (h Field.OtherErrorType (by decide))
      (h Field.OwningEntity (by decide)) (h Field.MessageID (by decide))
      (h Field.Message (by decide)) (h Field.MessageArguments (by decide))
      (h Field.PerceivedSeverity (by decide)) (h Field.ProbableCause (by decide))
      (h Field.ProbableCauseDescription (by decide)) (h Field.RecommendedActions (by decide))
      (h Field.ErrorSource (by decide)) (h Field.ErrorSourceFormat (by decide))
      (h Field.OtherErrorSourceFormat (by decide)) (h Field.CIMStatusCode (by decide))
      (h Field.CIMStatusCodeDescription (by decide))
  · intro obj name hr a hhr hp
    have hnf : ¬ hr < 0 := not_lt.mpr hhr
    simp [WmiErrorInfo.vectorLine, WmiErrorInfo.queried, hp, FAILED, hnf, present,
      ComVariant.is_empty, ComVariant.is_null, ComVariant.retrieve_vector]
  · intro self name h
    simp [WmiErrorInfo.textLine, WmiErrorInfo.uintLine, WmiErrorInfo.ushortLine,
      WmiErrorInfo.vectorLine, h]

/-- C6, at the bag holding `MessageArguments = ["A", "B"]` alone, where the closed form of
the section gives the section of the scenario, at the bag holding `ErrorType = 0xffffffff`
and `CIMStatusCode = 0x80000000`, where it gives the lines `-1` and `-2147483648`, and at
`ErrorType = 7`, where the line written is the line of the numeral. -/
theorem write_CIMError_layout_witness :
    WmiErrorInfo.write_CIMError { error_info := some argumentsObject } none
        = Except.ok "CIMError information:\n\tMessageArguments:\n\tA\n\tB\n"
    ∧ WmiErrorInfo.vectorLine { error_info := some argumentsObject } "MessageArguments"
        = "\n\tMessageArguments:\n\tA\n\tB"
    ∧ WmiErrorInfo.write_CIMError { error_info := some wideCodesObject } none
        = Except.ok "CIMError information:\n\tErrorType: -1\n\tCIMStatusCode: -2147483648\n"
    ∧ WmiErrorInfo.uintLine { error_info := some (singleObject "ErrorType" (Variant.ui4 7)) }
          "ErrorType"
        = "\n\tErrorType: 7" :=
  ⟨(write_CIMError_layout.1 { error_info := some argumentsObject } none (by decide)).trans rfl,
   (write_CIMError_layout.2.1 argumentsObject "MessageArguments" S_OK ["A", "B"]
      (by decide) rfl).trans rfl,
   (write_CIMError_layout.1 { error_info := some wideCodesObject } none (by decide)).trans
      (congrArg Except.ok (by decide)),
   (write_CIMError_layout.2.2.2.2.2.2.2.2
      { error_info := some (singleObject "ErrorType" (Variant.ui4 7)) } "ErrorType"
      (by decide)).trans (by decide)⟩

/-- C7: the report writes an unsigned 32-bit field through the `int` parameter of `_itow_s`.
For `StatusCode = 0x80041001` the line carries `-2147217407`, while the base-10 numeral of the
unsigned value is `2147749889`. An unsigned 32-bit value below `2 ^ 31` found for StatusCode,
ErrorType or CIMStatusCode is written as its base-10 numeral; a value from `2 ^ 31` on is
written as a minus sign and the numeral of `2 ^ 32` minus the value. An unsigned 16-bit value
found for PerceivedSeverity, ProbableCause or ErrorSourceFormat is written as its base-10
numeral. -/
theorem integer_rendering :
    (∀ slot, WmiErrorInfo.write_ExtendedStatus { error_info := some failedStatusObject } slot
        = Except.ok "__ExtendedStatus information:\n\tStatusCode: -2147217407\n")
    ∧ toString (0x80041001 : Nat) = "2147749889"
    ∧ (∀ (v : Nat) (slot : ErrorSlot), v < 2 ^ 31 →
        WmiErrorInfo.write_ExtendedStatus
            { error_info := some (singleObject "StatusCode" (Variant.ui4 v)) } slot
          = Except.ok ("__ExtendedStatus information:\n\tStatusCode: " ++ toString v ++ "\n")
        ∧ WmiErrorInfo.write_CIMError
            { error_info := some (singleObject "ErrorType" (Variant.ui4 v)) } slot
          = Except.ok ("CIMError information:\n\tErrorType: " ++ toString v ++ "\n")
        ∧ WmiErrorInfo.write_CIMError
            { error_info := some (singleObject "CIMStatusCode" (Variant.ui4 v)) } slot
          = Except.ok ("CIMError information:\n\tCIMStatusCode: " ++ toString v ++ "\n"))
    ∧ (∀ (v : Nat) (slot : ErrorSlot), 2 ^ 31 ≤ v → v < 2 ^ 32 →
        WmiErrorInfo.write_ExtendedStatus
            { error_info := some (singleObject "StatusCode" (Variant.ui4 v)) } slot
          = Except.ok ("__ExtendedStatus information:\n\tStatusCode: "
              ++ ("-" ++ toString (2 ^ 32 - v)) ++ "\n"))
    ∧ (∀ (v : Nat) (slot : ErrorSlot), v < 2 ^ 16 →
        WmiErrorInfo.write_CIMError
            { error_info := some (singleObject "PerceivedSeverity" (Variant.ui2 v)) } slot
          = Except.ok ("CIMError information:\n\tPerceivedSeverity: " ++ toString v ++ "\n")
        ∧ WmiErrorInfo.write_CIMError
            { error_info := some (singleObject "ProbableCause" (Variant.ui2 v)) } slot
          = Except.ok ("CIMError information:\n\tProbableCause: " ++ toString v ++ "\n")
        ∧ WmiErrorInfo.write_CIMError
            { error_info := some (singleObject "ErrorSourceFormat" (Variant.ui2 v)) } slot
          = Except.ok ("CIMError information:\n\tErrorSourceFormat: " ++ toString v
              ++ "\n")) := by
  have hext : ∀ (n : String) (val : Variant) (slot : ErrorSlot),
      WmiErrorInfo.write_ExtendedStatus { error_info := some (singleObject n val) } slot
        = Except.ok ("__ExtendedStatus information:" ++ String.join
            (Field.extendedStatusFields.map
              (Field.line { error_info := some (singleObject n val) })) ++ "\n") :=
    fun n val slot => write_ExtendedStatus_lines _ slot (fun f _ => single_no_failure n val f.name)
  have hcim : ∀ (n : String) (val : Variant) (slot : ErrorSlot),
      WmiErrorInfo.write_CIMError { error_info := some (singleObject n val) } slot
        = Except.ok ("CIMError information:" ++ String.join
            (Field.cimErrorFields.map
              (Field.line { error_info := some (singleObject n val) })) ++ "\n") :=
    fun n val slot => write_CIMError_lines _ slot (fun f _ => single_no_failure n val f.name)
  have hv32 : ∀ v : Nat, v < 2 ^ 32 → v % 4294967296 = v := fun v h => Nat.mod_eq_of_lt h
  have hv16 : ∀ v : Nat, v < 2 ^ 16 → v % 65536 = v := fun v h => Nat.mod_eq_of_lt h
  refine ⟨fun _ => rfl, by decide, ?_, ?_, ?_⟩
  · intro v slot hv
    have hs : written_uint v = toString v := by
      unfold written_uint
      rw [if_pos hv]
    have hm := hv32 v (by omega)
    refine ⟨?_, ?_, ?_⟩
    · rw [hext]
      simp [Field.extendedStatusFields, Field.line, Field.name, Field.kind, Field.Kind.tail,
        Field.Kind.retrieve, single_queried, present, ComVariant.is_empty, ComVariant.is_null,
        ComVariant.retrieve_uint, join_cons, join_nil, hm, hs, String.append_assoc]
      simp only [← String.append_assoc]
      rfl
    · rw [hcim]
      simp [Field.cimErrorFields, Field.line, Field.name, Field.kind, Field.Kind.tail,
        Field.Kind.retrieve, single_queried, present, ComVariant.is_empty, ComVariant.is_null,
        ComVariant.retrieve_uint, join_cons, join_nil, hm, hs, String.append_assoc]
      simp only [← String.append_assoc]
      rfl
    · rw [hcim]
      simp [Field.cimErrorFields, Field.line, Field.name, Field.kind, Field.Kind.tail,
        Field.Kind.retrieve, single_queried, present, ComVariant.is_empty, ComVariant.is_null,
        ComVariant.retrieve_uint, join_cons, join_nil, hm, hs, String.append_assoc]
      simp only [← String.append_assoc]
      rfl
  · intro v slot h1 h2
    have hs : written_uint v = "-" ++ toString (2 ^ 32 - v) := by
      unfold written_uint
      rw [if_neg (not_lt.mpr h1)]
    have hm := hv32 v h2
    rw [hext]
    simp [Field.extendedStatusFields, Field.line, Field.name, Field.kind, Field.Kind.tail,
      Field.Kind.retrieve, single_queried, present, ComVariant.is_empty, ComVariant.is_null,
      ComVariant.retrieve_uint, join_cons, join_nil, hm, hs, String.append_assoc]
    simp only [← String.append_assoc]
    rfl
  · intro v slot hv
    have hm := hv16 v hv
    refine ⟨?_, ?_, ?_⟩
    · rw [hcim]
      simp [Field.cimErrorFields, Field.line, Field.name, Field.kind, Field.Kind.tail,
        Field.Kind.retrieve, single_queried, present, ComVariant.is_empty, ComVariant.is_null,
        ComVariant.retrieve_ushort, join_cons, join_nil, hm, String.append_assoc]
      simp only [← String.append_assoc]
      rfl
    · rw [hcim]
      simp [Field.cimErrorFields, Field.line, Field.name, Field.kind, Field.Kind.tail,
        Field.Kind.retrieve, single_queried, present, ComVariant.is_empty, ComVariant.is_null,
        ComVariant.retrieve_ushort, join_cons, join_nil, hm, String.append_assoc]
      simp only [← String.append_assoc]
      rfl
    · rw [hcim]
      simp [Field.cimErrorFields, Field.line, Field.name, Field.kind, Field.Kind.tail,
        Field.Kind.retrieve, single_queried, present, ComVariant.is_empty, ComVariant.is_null,
        ComVariant.retrieve_ushort, join_cons, join_nil, hm, String.append_assoc]
      simp only [← String.append_assoc]
      rfl

/-- C7, at `StatusCode = 5`, at `StatusCode = 0x80041001` and at `PerceivedSeverity = 65535`. -/
theorem integer_rendering_witness :
    WmiErrorInfo.write_ExtendedStatus
        { error_info := some (singleObject "StatusCode" (Variant.ui4 5)) } none
      = Except.ok "__ExtendedStatus information:\n\tStatusCode: 5\n"
    ∧ WmiErrorInfo.write_ExtendedStatus
        { error_info := some (singleObject "StatusCode" (Variant.ui4 0x80041001)) } none
      = Except.ok "__ExtendedStatus information:\n\tStatusCode: -2147217407\n"
    ∧ WmiErrorInfo.write_CIMError
        { error_info := some (singleObject "PerceivedSeverity" (Variant.ui2 65535)) } none
      = Except.ok "CIMError information:\n\tPerceivedSeverity: 65535\n" :=
  ⟨((integer_rendering.2.2.1 5 none (by decide)).1).trans rfl,
   (integer_rendering.2.2.2.1 0x80041001 none (by decide) (by decide)).trans rfl,
   ((integer_rendering.2.2.2.2 65535 none (by decide)).1).trans rfl⟩

/-- C8: in a bag none of whose twenty queries is an interop failure, the report is the two
headers and, in schema order, one part per field; the twenty fields occur once each in that
order. For a field that is not found the accessor returns false with its reset value and the
part of the field is empty; for a field found with a value the accessor returns true with the
value coerced to its type and the part of the field is newline, tab, the name, and a colon
with the text of the value (a colon and one line per element for a sequence). For
`StatusCode = 0x80041001` the accessor gives `2147749889` and the line carries
`-2147217407`. -/
theorem report_line_per_field :
    (∀ (self : WmiErrorInfo) (slot : ErrorSlot),
      (∀ f : Field, self.interop_failure f.name = false) →
      self.error_text slot
          = Except.ok ("__ExtendedStatus information:"
              ++ String.join (Field.extendedStatusFields.map (Field.line self)) ++ "\n"
              ++ "CIMError information:"
              ++ String.join (Field.cimErrorFields.map (Field.line self)) ++ "\n")
        ∧ ∀ (f : Field) (out : f.kind.Out),
            (present (self.queried f.name) = false →
              f.accessor self slot out = Except.ok (false, f.reset) ∧ Field.line self f = "")
            ∧ (present (self.queried f.name) = true →
              f.accessor self slot out
                  = Except.ok (true, f.kind.retrieve (self.queried f.name))
                ∧ Field.line self f
                  = "\n\t" ++ f.name ++ f.kind.tail (f.kind.retrieve (self.queried f.name))))
    ∧ (Field.extendedStatusFields ++ Field.cimErrorFields).Nodup
    ∧ (∀ f : Field, f ∈ Field.extendedStatusFields ++ Field.cimErrorFields)
    ∧ WmiErrorInfo.get_StatusCode { error_info := some failedStatusObject } none 0
        = Except.ok (true, 2147749889)
    ∧ Field.line { error_info := some failedStatusObject } Field.StatusCode
        = "\n\tStatusCode: -2147217407" := by
  refine ⟨?_, by decide, ?_, rfl, by decide⟩
  · intro self slot h
    refine ⟨error_text_lines self slot h, ?_⟩
    intro f out
    rw [accessor_eq, get_parameter_value_of_no_failure self slot _ _ _ (h f)]
    constructor
    · intro hp
      simp [hp, Field.line]
    · intro hp
      simp [hp, Field.line]
  · intro f
    cases f <;> decide

/-- C8, at the bag of the firewall scenario: the report is the text of the scenario,
`ProviderName` is found and has its line, `Operation` is not found and has none. -/
theorem report_line_per_field_witness :
    WmiErrorInfo.error_text { error_info := some firewallObject } none
        = Except.ok ("__ExtendedStatus information:\n\tProviderName: WinFirewall\n\tStatusCode: 5\n"
            ++ "CIMError information:\n")
    ∧ Field.line { error_info := some firewallObject } Field.ProviderName
        = "\n\tProviderName: WinFirewall"
    ∧ Field.line { error_info := some firewallObject } Field.Operation = "" :=
  ⟨((report_line_per_field.1 { error_info := some firewallObject } none
      (fun f => by cases f <;> decide)).1).trans rfl,
   ((((report_line_per_field.1 { error_info := some firewallObject } none
      (fun f => by cases f <;> decide)).2
      Field.ProviderName "").2 (by decide)).2).trans (by decide),
   (((report_line_per_field.1 { error_info := some firewallObject } none
      (fun f => by cases f <;> decide)).2
      Field.Operation "").1 (by decide)).2⟩

/-- C10: whenever `error_text` returns, both section builders return, the extended-status
section is its header, some text and a newline, the CIM section is its header, some text and
a newline, and the report is the first section followed by the second. -/
theorem error_text_sections (self : WmiErrorInfo) (slot : ErrorSlot) (t : String)
    (h : self.error_text slot = Except.ok t) :
    ∃ x c : String,
      self.write_ExtendedStatus slot = Except.ok ("__ExtendedStatus information:" ++ x ++ "\n")
      ∧ self.write_CIMError slot = Except.ok ("CIMError information:" ++ c ++ "\n")
      ∧ t = ("__ExtendedStatus information:" ++ x ++ "\n")
            ++ ("CIMError information:" ++ c ++ "\n") := by
  cases ha : self.write_ExtendedStatus slot with
  | error e =>
    simp only [WmiErrorInfo.error_text, ha, error_bind] at h
    cases h
  | ok a =>
    cases hb : self.write_CIMError slot with
    | error e =>
      simp only [WmiErrorInfo.error_text, ha, hb, ok_bind, error_bind] at h
      cases h
    | ok b =>
      simp only [WmiErrorInfo.error_text, ha, hb, ok_bind] at h
      have ht : a ++ b = t := by
        injection h
      have ha2 := write_ExtendedStatus_lines self slot
        (write_ExtendedStatus_ok_no_failure self slot a ha)
      have hb2 := write_CIMError_lines self slot (write_CIMError_ok_no_failure self slot b hb)
      rw [ha] at ha2
      rw [hb] at hb2
      injection ha2 with ha2
      injection hb2 with hb2
      exact ⟨_, _, congrArg Except.ok ha2, congrArg Except.ok hb2, by rw [← ht, ha2, hb2]⟩

/-- C10, at the bag of the firewall scenario, whose report is the text of the scenario. -/
theorem error_text_sections_witness :
    ∃ x c : String,
      WmiErrorInfo.write_ExtendedStatus { error_info := some firewallObject } none
          = Except.ok ("__ExtendedStatus information:" ++ x ++ "\n")
      ∧ WmiErrorInfo.write_CIMError { error_info := some firewallObject } none
          = Except.ok ("CIMError information:" ++ c ++ "\n")
      ∧ ("__ExtendedStatus information:\n\tProviderName: WinFirewall\n\tStatusCode: 5\n"
            ++ "CIMError information:\n")
          = ("__ExtendedStatus information:" ++ x ++ "\n")
            ++ ("CIMError information:" ++ c ++ "\n") :=
  error_text_sections { error_info := some firewallObject } none
    ("__ExtendedStatus information:\n\tProviderName: WinFirewall\n\tStatusCode: 5\n"
      ++ "CIMError information:\n") rfl

/-! ## Capture of the error slot, ownership of the handle -/

theorem get_error_info_eq (self : WmiErrorInfo) (slot : ErrorSlot) :
    self.get_error_info slot
      = ({ error_info := match slot with
            | some e => if SUCCEEDED e.QueryInterface.1 then e.QueryInterface.2 else none
            | none => none }, none) := by
  cases slot with
  | none => simp [WmiErrorInfo.get_error_info, GetErrorInfo, S_OK, S_FALSE, WmiErrorInfo.release]
  | some e =>
    by_cases h : SUCCEEDED e.QueryInterface.1 = true
    · simp [WmiErrorInfo.get_error_info, GetErrorInfo, S_OK, h]
    · have hne : ¬ e.QueryInterface.1 = 0 := by
        intro h0
        apply h
        simp [SUCCEEDED, h0]
      simp [WmiErrorInfo.get_error_info, GetErrorInfo, S_OK, h, hne, WmiErrorInfo.release]

theorem ctor_eq (slot : ErrorSlot) :
    (WmiErrorInfo.ctor slot).1
      = { error_info := match slot with
            | some e => if SUCCEEDED e.QueryInterface.1 then e.QueryInterface.2 else none
            | none => none } := by
  rw [WmiErrorInfo.ctor, get_error_info_eq]

theorem ctor_has_error_iff (slot : ErrorSlot) :
    (WmiErrorInfo.ctor slot).1.has_error = true
      ↔ ∃ e, slot = some e ∧ e.bag_capable = true := by
  rw [ctor_eq]
  cases slot with
  | none => simp [WmiErrorInfo.has_error]
  | some e =>
    by_cases h : SUCCEEDED e.QueryInterface.1 = true <;>
      simp [WmiErrorInfo.has_error, IErrorInfo.bag_capable, h]

theorem get_parameter_value_false {T : Type} (self : WmiErrorInfo) (slot : ErrorSlot)
    (retrieve : Variant → T) (name : String) (value r : T)
    (h : self.get_parameter_value slot retrieve name value = Except.ok (false, r)) :
    r = value := by
  cases hf : self.interop_failure name with
  | false =>
    rw [get_parameter_value_of_no_failure self slot retrieve name value hf] at h
    injection h with h
    injection h with h1 h2
    rw [h1] at h2
    simpa using h2.symm
  | true =>
    obtain ⟨e, he, _⟩ := get_parameter_value_error_uniform self slot name hf
    rw [he] at h
    cases h

/-- C11: after default construction `has_error()` is true exactly when the error slot held
an error object (`GetErrorInfo` gave `S_OK`) whose query for the property-bag interface
succeeds and hands out a pointer; for an object that keeps the rule that a successful query
hands out a pointer this is exactly when the query succeeds, and the bag then holds that
pointer. With an empty slot, or an object whose query fails, the bag is empty. -/
theorem default_construction_has_error :
    (∀ slot : ErrorSlot,
      ((WmiErrorInfo.ctor slot).1.has_error = true
        ↔ ∃ e, slot = some e ∧ 0 ≤ e.QueryInterface.1 ∧ e.QueryInterface.2.isSome = true))
    ∧ (∀ e : IErrorInfo, (0 ≤ e.QueryInterface.1 → e.QueryInterface.2.isSome = true) →
        ((WmiErrorInfo.ctor (some e)).1.has_error = true ↔ 0 ≤ e.QueryInterface.1))
    ∧ (∀ e : IErrorInfo, 0 ≤ e.QueryInterface.1 →
        (WmiErrorInfo.ctor (some e)).1.error_info = e.QueryInterface.2)
    ∧ (WmiErrorInfo.ctor none).1 = { error_info := none }
    ∧ (∀ e : IErrorInfo, e.QueryInterface.1 < 0 →
        (WmiErrorInfo.ctor (some e)).1 = { error_info := none }) := by
  refine ⟨?_, ?_, ?_, ?_, ?_⟩
  · intro slot
    rw [ctor_has_error_iff]
    simp [IErrorInfo.bag_capable, SUCCEEDED]
  · intro e hc
    rw [ctor_has_error_iff]
    simp only [IErrorInfo.bag_capable, SUCCEEDED, Option.some.injEq, exists_eq_left',
      Bool.and_eq_true, decide_eq_true_eq]
    exact ⟨fun h => h.1, fun h => ⟨h, hc h⟩⟩
  · intro e h
    rw [ctor_eq]
    simp [SUCCEEDED, h]
  · rw [ctor_eq]
  · intro e h
    rw [ctor_eq]
    simp [SUCCEEDED, not_le.mpr h]

/-- C11, at an error object that hands out a bag, at one without the capability, and at the
empty slot. -/
theorem default_construction_has_error_witness :
    (WmiErrorInfo.ctor (some capableError)).1.has_error = true
    ∧ (WmiErrorInfo.ctor (some incapableError)).1 = { error_info := none }
    ∧ (WmiErrorInfo.ctor none).1.has_error = false :=
  ⟨(default_construction_has_error.2.1 capableError (fun _ => rfl)).mpr (by decide),
   default_construction_has_error.2.2.2.2 incapableError (by decide),
   congrArg WmiErrorInfo.has_error default_construction_has_error.2.2.2.1⟩

/-- C12: after move construction of `d` from `s`, and after move assignment of `s` to a bag
`d`, `s` holds no handle and `d` holds the handle `s` held before, so `d.has_error()` is
what `s.has_error()` was. -/
theorem move_transfers_handle (s d : WmiErrorInfo) :
    (WmiErrorInfo.ctor_move s).1.error_info = s.error_info
    ∧ (WmiErrorInfo.ctor_move s).2.has_error = false
    ∧ (WmiErrorInfo.ctor_move s).1.has_error = s.has_error
    ∧ (d.assign_move s).1.error_info = s.error_info
    ∧ (d.assign_move s).2.has_error = false
    ∧ (d.assign_move s).1.has_error = s.has_error :=
  ⟨rfl, rfl, rfl, rfl, rfl, rfl⟩

/-- C13: after `release()` the bag reports no error, and a second `release()` changes
nothing; a copy of `a`, made by the copy constructor or by copy assignment to a bag `b`,
holds the handle of `a`, and releasing the copy empties the copy only: `a` is read, not
written, by the copy, and `release()` writes the bag it is called on. -/
theorem release_idempotent (a b : WmiErrorInfo) :
    a.release.has_error = false
    ∧ a.release.release = a.release
    ∧ (WmiErrorInfo.ctor_copy a).error_info = a.error_info
    ∧ (WmiErrorInfo.ctor_copy a).release.has_error = false
    ∧ (b.assign_copy a).error_info = a.error_info
    ∧ (b.assign_copy a).release.has_error = false
    ∧ (WmiErrorInfo.ctor_copy a).has_error = a.has_error :=
  ⟨rfl, rfl, rfl, rfl, rfl, rfl, rfl⟩

/-- C14: after `a.swap(b)`, and after the non-member `swap(a, b)`, `a` holds the handle `b`
held and `b` holds the handle `a` held, so their `has_error()` values are exchanged; a
second swap restores both bags, and a swap of a bag with itself leaves it as it was. -/
theorem swap_exchanges (a b : WmiErrorInfo) :
    (a.swap b).1.error_info = b.error_info
    ∧ (a.swap b).2.error_info = a.error_info
    ∧ (a.swap b).1.has_error = b.has_error
    ∧ (a.swap b).2.has_error = a.has_error
    ∧ swap a b = a.swap b
    ∧ (a.swap b).1.swap (a.swap b).2 = (a, b)
    ∧ a.swap a = (a, a) :=
  ⟨rfl, rfl, rfl, rfl, rfl, rfl, rfl⟩

/-- C19: `get_error_info()` overwrites what the bag held: for two bags in any state the
result on the same slot is the same; with an error object in the slot the bag holds the
pointer of a successful interface query and is empty after a failed one, and with an empty
slot the bag is empty, also when it held a handle before. -/
theorem get_error_info_overwrites (self other : WmiErrorInfo) (obj : IWbemClassObject) :
    (∀ slot, self.get_error_info slot = other.get_error_info slot)
    ∧ (∀ e : IErrorInfo, (self.get_error_info (some e)).1
        = { error_info := if SUCCEEDED e.QueryInterface.1 then e.QueryInterface.2 else none })
    ∧ (self.get_error_info none).1 = { error_info := none }
    ∧ (WmiErrorInfo.get_error_info { error_info := some obj } none).1.has_error = false
    ∧ (WmiErrorInfo.get_error_info { error_info := some obj } (some incapableError)).1.has_error
        = false
    ∧ (WmiErrorInfo.get_error_info { error_info := some obj } (some capableError)).1.error_info
        = some firewallObject := by
  refine ⟨?_, ?_, ?_, rfl, rfl, rfl⟩
  · intro slot
    rw [get_error_info_eq, get_error_info_eq]
  · intro e
    rw [get_error_info_eq]
  · rw [get_error_info_eq]

/-- C20: whenever an accessor returns false its output is the value it wrote before the
query: the empty string for the eleven text accessors, the empty sequence for
`get_MessageArguments` and `get_RecommendedActions`, `0xffffffff` for `get_StatusCode` and
`get_ErrorType`, `0xffff` for `get_PerceivedSeverity`, `get_ProbableCause` and
`get_ErrorSourceFormat`, and `0` for `get_CIMStatusCode`. A `CIMStatusCode` found with the
value `0` and a `CIMStatusCode` that is not found both leave `0` in the output; the other
sentinels are the all-ones values of 32 and of 16 bits. -/
theorem reset_values :
    (∀ self slot out r, WmiErrorInfo.get_ProviderName self slot out = Except.ok (false, r) →
        r = "")
    ∧ (∀ self slot out r, WmiErrorInfo.get_Operation self slot out = Except.ok (false, r) →
        r = "")
    ∧ (∀ self slot out r, WmiErrorInfo.get_ParameterInfo self slot out = Except.ok (false, r) →
        r = "")
    ∧ (∀ self slot out r, WmiErrorInfo.get_Description self slot out = Except.ok (false, r) →
        r = "")
    ∧ (∀ self slot out r, WmiErrorInfo.get_StatusCode self slot out = Except.ok (false, r) →
        r = 0xffffffff)
    ∧ (∀ self slot out r, WmiErrorInfo.get_ErrorType self slot out = Except.ok (false, r) →
        r = 0xffffffff)
    ∧ (∀ self slot out r, WmiErrorInfo.get_OtherErrorType self slot out = Except.ok (false, r) →
        r = "")
    ∧ (∀ self slot out r, WmiErrorInfo.get_OwningEntity self slot out = Except.ok (false, r) →
        r = "")
    ∧ (∀ self slot out r, WmiErrorInfo.get_MessageID self slot out = Except.ok (false, r) →
        r = "")
    ∧ (∀ self slot out r, WmiErrorInfo.get_Message self slot out = Except.ok (false, r) →
        r = "")
    ∧ (∀ self slot out r, WmiErrorInfo.get_MessageArguments self slot out = Except.ok (false, r) →
        r = [])
    ∧ (∀ self slot out r, WmiErrorInfo.get_PerceivedSeverity self slot out = Except.ok (false, r) →
        r = 0xffff)
    ∧ (∀ self slot out r, WmiErrorInfo.get_ProbableCause self slot out = Except.ok (false, r) →
        r = 0xffff)
    ∧ (∀ self slot out r, WmiErrorInfo.get_ProbableCauseDescription self slot out = Except.ok (false, r) →
        r = "")
    ∧ (∀ self slot out r, WmiErrorInfo.get_RecommendedActions self slot out = Except.ok (false, r) →
        r = [])
    ∧ (∀ self slot out r, WmiErrorInfo.get_ErrorSource self slot out = Except.ok (false, r) →
        r = "")
    ∧ (∀ self slot out r, WmiErrorInfo.get_ErrorSourceFormat self slot out = Except.ok (false, r) →
        r = 0xffff)
    ∧ (∀ self slot out r, WmiErrorInfo.get_OtherErrorSourceFormat self slot out = Except.ok (false, r) →
        r = "")
    ∧ (∀ self slot out r, WmiErrorInfo.get_CIMStatusCode self slot out = Except.ok (false, r) →
        r = 0)
    ∧ (∀ self slot out r, WmiErrorInfo.get_CIMStatusCodeDescription self slot out = Except.ok (false, r) →
        r = "")
    ∧ (∀ slot out, WmiErrorInfo.get_CIMStatusCode
          { error_info := some (singleObject "CIMStatusCode" (Variant.ui4 0)) } slot out
        = Except.ok (true, 0))
    ∧ (∀ slot out, WmiErrorInfo.get_CIMStatusCode { error_info := some emptyObject } slot out
        = Except.ok (false, 0))
    ∧ (0xffffffff : Nat) = 2 ^ 32 - 1
    ∧ (0xffff : Nat) = 2 ^ 16 - 1 :=
  ⟨fun self slot _ r h => get_parameter_value_false self slot _ _ _ r h,
    fun self slot _ r h => get_parameter_value_false self slot _ _ _ r h,
    fun self slot _ r h => get_parameter_value_false self slot _ _ _ r h,
    fun self slot _ r h => get_parameter_value_false self slot _ _ _ r h,
    fun self slot _ r h => get_parameter_value_false self slot _ _ _ r h,
    fun self slot _ r h => get_parameter_value_false self slot _ _ _ r h,
    fun self slot _ r h => get_parameter_value_false self slot _ _ _ r h,
    fun self slot _ r h => get_parameter_value_false self slot _ _ _ r h,
    fun self slot _ r h => get_parameter_value_false self slot _ _ _ r h,
    fun self slot _ r h => get_parameter_value_false self slot _ _ _ r h,
    fun self slot _ r h => get_parameter_value_false self slot _ _ _ r h,
    fun self slot _ r h => get_parameter_value_false self slot _ _ _ r h,
    fun self slot _ r h => get_parameter_value_false self slot _ _ _ r h,
    fun self slot _ r h => get_parameter_value_false self slot _ _ _ r h,
    fun self slot _ r h => get_parameter_value_false self slot _ _ _ r h,
    fun self slot _ r h => get_parameter_value_false self slot _ _ _ r h,
    fun self slot _ r h => get_parameter_value_false self slot _ _ _ r h,
    fun self slot _ r h => get_parameter_value_false self slot _ _ _ r h,
    fun self slot _ r h => get_parameter_value_false self slot _ _ _ r h,
    fun self slot _ r h => get_parameter_value_false self slot _ _ _ r h,
    fun _ _ => rfl, fun _ _ => rfl, by decide, by decide⟩

/-- C20, at the bag of the firewall scenario: `get_CIMStatusCode` and `get_ErrorType` return
false there, with the outputs `0` and `0xffffffff`. -/
theorem reset_values_witness :
    (∀ r, WmiErrorInfo.get_CIMStatusCode { error_info := some firewallObject } none 77
        = Except.ok (false, r) → r = 0)
    ∧ WmiErrorInfo.get_CIMStatusCode { error_info := some firewallObject } none 77
        = Except.ok (false, 0)
    ∧ WmiErrorInfo.get_ErrorType { error_info := some firewallObject } none 77
        = Except.ok (false, 0xffffffff) :=
  ⟨fun r h => reset_values.2.2.2.2.2.2.2.2.2.2.2.2.2.2.2.2.2.2.1
      { error_info := some firewallObject } none 77 r h, rfl, rfl⟩

/-! ## `WmiException` -/

theorem get_className_null (className : Option String) :
    WmiException.get_className className none = className :=
  rfl

theorem get_className_failed (className : Option String) (obj : IWbemClassObject)
    (h : (obj.property "__CLASS").1 < 0) :
    WmiException.get_className className (some obj) = className := by
  simp [WmiException.get_className, IWbemClassObject.Get, FAILED, SUCCEEDED, h, not_le.mpr h]

theorem get_className_succeeded (className : Option String) (obj : IWbemClassObject)
    (s : String) (h : 0 ≤ (obj.property "__CLASS").1)
    (hs : (obj.property "__CLASS").2 = Variant.bstr s) :
    WmiException.get_className className (some obj) = some s := by
  simp [WmiException.get_className, IWbemClassObject.Get, FAILED, SUCCEEDED, h, not_lt.mpr h,
    hs, WmiException.bstrVal]

/-- C15: each of the four constructors that take a remote object pointer raises nothing and
leaves the class name empty when the pointer is null and when the `__CLASS` query on the
object fails, and `class_w()` returns the string of the query when the query succeeds with a
string; for each of the five constructors that take no object pointer `class_w()` returns
the empty string. -/
theorem class_name_capture (slot : ErrorSlot) (code : HRESULT) (message location : LPCWSTR)
    (copy : Bool) :
    (∀ c ∈ WmiException.with_object,
      (c slot code message location copy none).class_w = ""
      ∧ (∀ obj : IWbemClassObject, (obj.property "__CLASS").1 < 0 →
          (c slot code message location copy (some obj)).class_w = "")
      ∧ (∀ (obj : IWbemClassObject) (s : String), 0 ≤ (obj.property "__CLASS").1 →
          (obj.property "__CLASS").2 = Variant.bstr s →
          (c slot code message location copy (some obj)).class_w = s))
    ∧ (∀ c ∈ WmiException.without_object, (c slot code message location copy).class_w = "") := by
  constructor
  · intro c hc
    simp only [WmiException.with_object, List.mem_cons, List.mem_singleton, List.not_mem_nil,
      or_false] at hc
    rcases hc with rfl | rfl | rfl | rfl
    all_goals
      refine ⟨rfl, ?_, ?_⟩
      · intro obj h
        simp [WmiException.ctor_code_class, WmiException.ctor_message_class,
          WmiException.ctor_code_class_message, WmiException.ctor_code_class_message_location,
          WmiException.class_w, get_className_failed none obj h]
      · intro obj s h hs
        simp [WmiException.ctor_code_class, WmiException.ctor_message_class,
          WmiException.ctor_code_class_message, WmiException.ctor_code_class_message_location,
          WmiException.class_w, get_className_succeeded none obj s h hs]
  · intro c hc
    simp only [WmiException.without_object, List.mem_cons, List.mem_singleton,
      List.not_mem_nil, or_false] at hc
    rcases hc with rfl | rfl | rfl | rfl | rfl <;> rfl

/-- C15, at the constructor `WmiException(code, classObject)`: for an object of the class
`MSFT_NetFirewallRule` the class name is that string, for a bag whose `__CLASS` query
reports "not found" it is empty. -/
theorem class_name_capture_witness :
    (WmiException.ctor_code_class none E_FAIL (some ruleObject)).1.class_w
        = "MSFT_NetFirewallRule"
    ∧ (WmiException.ctor_code_class none E_FAIL (some emptyObject)).1.class_w = "" :=
  ⟨((class_name_capture none E_FAIL { text := "", storage := Storage.static }
      { text := "", storage := Storage.static } true).1
      (fun slot code _ _ _ obj => (WmiException.ctor_code_class slot code obj).1)
      (by simp [WmiException.with_object])).2.2 ruleObject "MSFT_NetFirewallRule"
      (by decide) rfl,
   ((class_name_capture none E_FAIL { text := "", storage := Storage.static }
      { text := "", storage := Storage.static } true).1
      (fun slot code _ _ _ obj => (WmiException.ctor_code_class slot code obj).1)
      (by simp [WmiException.with_object])).2.1 emptyObject (by decide)⟩

/-- C16, refuted as stated: when the platform has no memory for the copy of the class name,
the copy of an exception whose class name is `MSFT_NetFirewallRule` reports the empty
string. -/
theorem copy_without_memory_loses_class_name :
    ruleException.class_w = "MSFT_NetFirewallRule"
    ∧ (ruleException.ctor_copy false).class_w = ""
    ∧ WmiException.class_w_bstr ruleHeap (some 0) = "MSFT_NetFirewallRule"
    ∧ WmiException.class_w_bstr (WmiException.copy_className ruleHeap none (some 0)).2
        (WmiException.copy_className ruleHeap none (some 0)).1 = "" :=
  ⟨rfl, rfl, rfl, rfl⟩

/-- C16, amended: when the duplication of the class name succeeds, and when the source has
no class name, the copy reports the class name of the source. The copy holds it in a block
of its own: with the source's string at `p` and the new block at an unused address `a`, the
copy's pointer is `a`, not `p`, and `class_w()` of the copy is the same after the source has
been destroyed (its string freed) and after the string of the source has been overwritten.
When the duplication fails the class name of the copy is empty. -/
theorem copy_class_name (e : WmiException) (heap : BstrHeap) (p a : Nat) (s : String)
    (hp : heap p = some s) (ha : heap a = none) :
    (e.ctor_copy true).class_w = e.class_w
    ∧ (e.className = none → ∀ allocated, (e.ctor_copy allocated).class_w = e.class_w)
    ∧ (e.ctor_copy false).class_w = ""
    ∧ (WmiException.copy_className heap (some a) (some p)).1 = some a
    ∧ a ≠ p
    ∧ WmiException.class_w_bstr (WmiException.copy_className heap (some a) (some p)).2
        (WmiException.copy_className heap (some a) (some p)).1
        = WmiException.class_w_bstr heap (some p)
    ∧ WmiException.class_w_bstr
        (WmiException.destroy (WmiException.copy_className heap (some a) (some p)).2 (some p))
        (WmiException.copy_className heap (some a) (some p)).1
        = WmiException.class_w_bstr heap (some p)
    ∧ (∀ s' : String, WmiException.class_w_bstr
        (fun b => if b = p then some s'
          else (WmiException.copy_className heap (some a) (some p)).2 b)
        (WmiException.copy_className heap (some a) (some p)).1
        = WmiException.class_w_bstr heap (some p))
    ∧ (∀ block, WmiException.copy_className heap block none = (none, heap))
    ∧ WmiException.class_w_bstr (WmiException.copy_className heap none (some p)).2
        (WmiException.copy_className heap none (some p)).1 = "" := by
  have hap : a ≠ p := by
    intro h
    rw [h, hp] at ha
    cases ha
  refine ⟨?_, ?_, ?_, rfl, hap, ?_, ?_, ?_, fun _ => rfl, rfl⟩
  · cases h : e.className <;> simp [WmiException.ctor_copy, WmiException.class_w, h]
  · intro h allocated
    simp [WmiException.ctor_copy, WmiException.class_w, h]
  · cases h : e.className <;> simp [WmiException.ctor_copy, WmiException.class_w, h]
  · simp [WmiException.copy_className, SysAllocString, WmiException.class_w_bstr,
      BstrHeap.read]
  · simp [WmiException.copy_className, SysAllocString, WmiException.class_w_bstr,
      WmiException.destroy, SysFreeString, BstrHeap.read, hap]
  · intro s'
    simp [WmiException.copy_className, SysAllocString, WmiException.class_w_bstr,
      BstrHeap.read, hap]

/-- C16, amended, at the exception of the firewall rule with its class name at address `0`
and the block of the copy at address `1`. -/
theorem copy_class_name_witness :
    (ruleException.ctor_copy true).class_w = "MSFT_NetFirewallRule"
    ∧ WmiException.class_w_bstr
        (WmiException.destroy (WmiException.copy_className ruleHeap (some 1) (some 0)).2 (some 0))
        (WmiException.copy_className ruleHeap (some 1) (some 0)).1
        = "MSFT_NetFirewallRule" :=
  ⟨(copy_class_name ruleException ruleHeap 0 1 "MSFT_NetFirewallRule" rfl rfl).1,
   (copy_class_name ruleException ruleHeap 0 1 "MSFT_NetFirewallRule" rfl rfl).2.2.2.2.2.2.1⟩

/-- C17: every constructor other than the copy constructor captures the error slot: the
bag of the new exception reports an error exactly when the slot held an error object with
the property-bag capability. The copy constructor takes the handle of the source, whatever
the slot holds: the copy of an exception built while the slot held a capable error object
reports an error, where an exception built on the empty slot reports none. `error_info()`
returns a bag that holds the handle of the embedded bag; releasing that bag empties it, and
the embedded bag is not written. -/
theorem error_info_capture (slot : ErrorSlot) (code : HRESULT) (message location : LPCWSTR)
    (copy : Bool) (e : WmiException) (allocated : Bool) :
    (∀ c ∈ WmiException.with_object, ∀ obj,
      ((c slot code message location copy obj).error_info.has_error = true
        ↔ ∃ err, slot = some err ∧ err.bag_capable = true))
    ∧ (∀ c ∈ WmiException.without_object,
      ((c slot code message location copy).error_info.has_error = true
        ↔ ∃ err, slot = some err ∧ err.bag_capable = true))
    ∧ (e.ctor_copy allocated).error_info.error_info = e.error_info.error_info
    ∧ (ruleException.ctor_copy allocated).error_info.has_error = true
    ∧ (WmiException.ctor_code_class none E_FAIL (some ruleObject)).1.error_info.has_error = false
    ∧ e.error_info.error_info = e.errorInfo.error_info
    ∧ e.error_info.release.has_error = false := by
  refine ⟨?_, ?_, rfl, rfl, rfl, rfl, rfl⟩
  · intro c hc obj
    simp only [WmiException.with_object, List.mem_cons, List.mem_singleton, List.not_mem_nil,
      or_false] at hc
    rcases hc with rfl | rfl | rfl | rfl <;> exact ctor_has_error_iff slot
  · intro c hc
    simp only [WmiException.without_object, List.mem_cons, List.mem_singleton,
      List.not_mem_nil, or_false] at hc
    rcases hc with rfl | rfl | rfl | rfl | rfl <;> exact ctor_has_error_iff slot

/-! ## The first failing field -/

/-- When a query of `write_ExtendedStatus` is an interop failure, the builder raises the
exception of the first such query in the order of its fields. -/
theorem write_ExtendedStatus_first_failure (self : WmiErrorInfo) (slot : ErrorSlot) (f0 : Field)
    (h : Field.extendedStatusFields.find? (fun f => self.interop_failure f.name) = some f0) :
    ∃ e obj, self.write_ExtendedStatus slot = Except.error e ∧ self.error_info = some obj
      ∧ e.code = (obj.property f0.name).1 ∧ self.throws_for slot f0.name e := by
  rcases Bool.eq_false_or_eq_true (self.interop_failure "ProviderName") with h1 | h1
  · obtain ⟨e, he, obj, hobj, hcode, hloc⟩ :=
      get_parameter_value_error_uniform self slot "ProviderName" h1
    have hf0 : Field.ProviderName = f0 := by
      simpa [Field.extendedStatusFields, List.find?_cons, Field.name, h1] using h
    subst hf0
    refine ⟨e, obj, ?_, hobj, hcode, he⟩
    simp only [WmiErrorInfo.write_ExtendedStatus,
      ok_bind, he, error_bind]
  rcases Bool.eq_false_or_eq_true (self.interop_failure "Operation") with h2 | h2
  · obtain ⟨e, he, obj, hobj, hcode, hloc⟩ :=
      get_parameter_value_error_uniform self slot "Operation" h2
    have hf0 : Field.Operation = f0 := by
      simpa [Field.extendedStatusFields, List.find?_cons, Field.name, h1, h2] using h
    subst hf0
    refine ⟨e, obj, ?_, hobj, hcode, he⟩
    simp only [WmiErrorInfo.write_ExtendedStatus,
      get_parameter_value_of_no_failure self _ _ _ _ h1,
      ok_bind, he, error_bind]
  rcases Bool.eq_false_or_eq_true (self.interop_failure "ParameterInfo") with h3 | h3
  · obtain ⟨e, he, obj, hobj, hcode, hloc⟩ :=
      get_parameter_value_error_uniform self slot "ParameterInfo" h3
    have hf0 : Field.ParameterInfo = f0 := by
      simpa [Field.extendedStatusFields, List.find?_cons, Field.name, h1, h2, h3] using h
    subst hf0
    refine ⟨e, obj, ?_, hobj, hcode, he⟩
    simp only [WmiErrorInfo.write_ExtendedStatus,
      get_parameter_value_of_no_failure self _ _ _ _ h1,
      get_parameter_value_of_no_failure self _ _ _ _ h2,
      ok_bind, he, error_bind]
  rcases Bool.eq_false_or_eq_true (self.interop_failure "Description") with h4 | h4
  · obtain ⟨e, he, obj, hobj, hcode, hloc⟩ :=
      get_parameter_value_error_uniform self slot "Description" h4
    have hf0 : Field.Description = f0 := by
      simpa [Field.extendedStatusFields, List.find?_cons, Field.name, h1, h2, h3, h4] using h
    subst hf0
    refine ⟨e, obj, ?_, hobj, hcode, he⟩
    simp only [WmiErrorInfo.write_ExtendedStatus,
      get_parameter_value_of_no_failure self _ _ _ _ h1,
      get_parameter_value_of_no_failure self _ _ _ _ h2,
      get_parameter_value_of_no_failure self _ _ _ _ h3,
      ok_bind, he, error_bind]
  rcases Bool.eq_false_or_eq_true (self.interop_failure "StatusCode") with h5 | h5
  · obtain ⟨e, he, obj, hobj, hcode, hloc⟩ :=
      get_parameter_value_error_uniform self slot "StatusCode" h5
    have hf0 : Field.StatusCode = f0 := by
      simpa [Field.extendedStatusFields, List.find?_cons, Field.name, h1, h2, h3, h4, h5] using h
    subst hf0
    refine ⟨e, obj, ?_, hobj, hcode, he⟩
    simp only [WmiErrorInfo.write_ExtendedStatus,
      get_parameter_value_of_no_failure self _ _ _ _ h1,
      get_parameter_value_of_no_failure self _ _ _ _ h2,
      get_parameter_value_of_no_failure self _ _ _ _ h3,
      get_parameter_value_of_no_failure self _ _ _ _ h4,
      ok_bind, he, error_bind]
  simp [Field.extendedStatusFields, List.find?_cons, Field.name, h1, h2, h3, h4, h5] at h

/-- When a query of `write_CIMError` is an interop failure, the builder raises the exception
of the first such query in the order of its fields. -/
theorem write_CIMError_first_failure (self : WmiErrorInfo) (slot : ErrorSlot) (f0 : Field)
    (h : Field.cimErrorFields.find? (fun f => self.interop_failure f.name) = some f0) :
    ∃ e obj, self.write_CIMError slot = Except.error e ∧ self.error_info = some obj
      ∧ e.code = (obj.property f0.name).1 ∧ self.throws_for slot f0.name e := by
  rcases Bool.eq_false_or_eq_true (self.interop_failure "ErrorType") with h1 | h1
  · obtain ⟨e, he, obj, hobj, hcode, hloc⟩ :=
      get_parameter_value_error_uniform self slot "ErrorType" h1
    have hf0 : Field.ErrorType = f0 := by
      simpa [Field.cimErrorFields, List.find?_cons, Field.name, h1] using h
    subst hf0
    refine ⟨e, obj, ?_, hobj, hcode, he⟩
    simp only [WmiErrorInfo.write_CIMError,
      ok_bind, he, error_bind]
  rcases Bool.eq_false_or_eq_true (self.interop_failure "OtherErrorType") with h2 | h2
  · obtain ⟨e, he, obj, hobj, hcode, hloc⟩ :=
      get_parameter_value_error_uniform self slot "OtherErrorType" h2
    have hf0 : Field.OtherErrorType = f0 := by
      simpa [Field.cimErrorFields, List.find?_cons, Field.name, h1, h2] using h
    subst hf0
    refine ⟨e, obj, ?_, hobj, hcode, he⟩
    simp only [WmiErrorInfo.write_CIMError,
      get_parameter_value_of_no_failure self _ _ _ _ h1,
      ok_bind, he, error_bind]
  rcases Bool.eq_false_or_eq_true (self.interop_failure "OwningEntity") with h3 | h3
  · obtain ⟨e, he, obj, hobj, hcode, hloc⟩ :=
      get_parameter_value_error_uniform self slot "OwningEntity" h3
    have hf0 : Field.OwningEntity = f0 := by
      simpa [Field.cimErrorFields, List.find?_cons, Field.name, h1, h2, h3] using h
    subst hf0
    refine ⟨e, obj, ?_, hobj, hcode, he⟩
    simp only [WmiErrorInfo.write_CIMError,
      get_parameter_value_of_no_failure self _ _ _ _ h1,
      get_parameter_value_of_no_failure self _ _ _ _ h2,
      ok_bind, he, error_bind]
  rcases Bool.eq_false_or_eq_true (self.interop_failure "MessageID") with h4 | h4
  · obtain ⟨e, he, obj, hobj, hcode, hloc⟩ :=
      get_parameter_value_error_uniform self slot "MessageID" h4
    have hf0 : Field.MessageID = f0 := by
      simpa [Field.cimErrorFields, List.find?_cons, Field.name, h1, h2, h3, h4] using h
    subst hf0
    refine ⟨e, obj, ?_, hobj, hcode, he⟩
    simp only [WmiErrorInfo.write_CIMError,
      get_parameter_value_of_no_failure self _ _ _ _ h1,
      get_parameter_value_of_no_failure self _ _ _ _ h2,
      get_parameter_value_of_no_failure self _ _ _ _ h3,
      ok_bind, he, error_bind]
  rcases Bool.eq_false_or_eq_true (self.interop_failure "Message") with h5 | h5
  · obtain ⟨e, he, obj, hobj, hcode, hloc⟩ :=
      get_parameter_value_error_uniform self slot "Message" h5
    have hf0 : Field.Message = f0 := by
      simpa [Field.cimErrorFields, List.find?_cons, Field.name, h1, h2, h3, h4, h5] using h
    subst hf0
    refine ⟨e, obj, ?_, hobj, hcode, he⟩
    simp only [WmiErrorInfo.write_CIMError,
      get_parameter_value_of_no_failure self _ _ _ _ h1,
      get_parameter_value_of_no_failure self _ _ _ _ h2,
      get_parameter_value_of_no_failure self _ _ _ _ h3,
      get_parameter_value_of_no_failure self _ _ _ _ h4,
      ok_bind, he, error_bind]
  rcases Bool.eq_false_or_eq_true (self.interop_failure "MessageArguments") with h6 | h6
  · obtain ⟨e, he, obj, hobj, hcode, hloc⟩ :=
      get_parameter_value_error_uniform self slot "MessageArguments" h6
    have hf0 : Field.MessageArguments = f0 := by
      simpa [Field.cimErrorFields, List.find?_cons, Field.name, h1, h2, h3, h4, h5, h6] using h
    subst hf0
    refine ⟨e, obj, ?_, hobj, hcode, he⟩
    simp only [WmiErrorInfo.write_CIMError,
      get_parameter_value_of_no_failure self _ _ _ _ h1,
      get_parameter_value_of_no_failure self _ _ _ _ h2,
      get_parameter_value_of_no_failure self _ _ _ _ h3,
      get_parameter_value_of_no_failure self _ _ _ _ h4,
      get_parameter_value_of_no_failure self _ _ _ _ h5,
      ok_bind, he, error_bind]
  rcases Bool.eq_false_or_eq_true (self.interop_failure "PerceivedSeverity") with h7 | h7
  · obtain ⟨e, he, obj, hobj, hcode, hloc⟩ :=
      get_parameter_value_error_uniform self slot "PerceivedSeverity" h7
    have hf0 : Field.PerceivedSeverity = f0 := by
      simpa [Field.cimErrorFields, List.find?_cons, Field.name, h1, h2, h3, h4, h5, h6, h7] using h
    subst hf0
    refine ⟨e, obj, ?_, hobj, hcode, he⟩
    simp only [WmiErrorInfo.write_CIMError,
      get_parameter_value_of_no_failure self _ _ _ _ h1,
      get_parameter_value_of_no_failure self _ _ _ _ h2,
      get_parameter_value_of_no_failure self _ _ _ _ h3,
      get_parameter_value_of_no_failure self _ _ _ _ h4,
      get_parameter_value_of_no_failure self _ _ _ _ h5,
      get_parameter_value_of_no_failure self _ _ _ _ h6,
      ok_bind, he, error_bind]
  rcases Bool.eq_false_or_eq_true (self.interop_failure "ProbableCause") with h8 | h8
  · obtain ⟨e, he, obj, hobj, hcode, hloc⟩ :=
      get_parameter_value_error_uniform self slot "ProbableCause" h8
    have hf0 : Field.ProbableCause = f0 := by
      simpa [Field.cimErrorFields, List.find?_cons, Field.name, h1, h2, h3, h4, h5, h6, h7, h8] using h
    subst hf0
    refine ⟨e, obj, ?_, hobj, hcode, he⟩
    simp only [WmiErrorInfo.write_CIMError,
      get_parameter_value_of_no_failure self _ _ _ _ h1,
      get_parameter_value_of_no_failure self _ _ _ _ h2,
      get_parameter_value_of_no_failure self _ _ _ _ h3,
      get_parameter_value_of_no_failure self _ _ _ _ h4,
      get_parameter_value_of_no_failure self _ _ _ _ h5,
      get_parameter_value_of_no_failure self _ _ _ _ h6,
      get_parameter_value_of_no_failure self _ _ _ _ h7,
      ok_bind, he, error_bind]
  rcases Bool.eq_false_or_eq_true (self.interop_failure "ProbableCauseDescription") with h9 | h9
  · obtain ⟨e, he, obj, hobj, hcode, hloc⟩ :=
      get_parameter_value_error_uniform self slot "ProbableCauseDescription" h9
    have hf0 : Field.ProbableCauseDescription = f0 := by
      simpa [Field.cimErrorFields, List.find?_cons, Field.name, h1, h2, h3, h4, h5, h6, h7, h8, h9] using h
    subst hf0
    refine ⟨e, obj, ?_, hobj, hcode, he⟩
    simp only [WmiErrorInfo.write_CIMError,
      get_parameter_value_of_no_failure self _ _ _ _ h1,
      get_parameter_value_of_no_failure self _ _ _ _ h2,
      get_parameter_value_of_no_failure self _ _ _ _ h3,
      get_parameter_value_of_no_failure self _ _ _ _ h4,
      get_parameter_value_of_no_failure self _ _ _ _ h5,
      get_parameter_value_of_no_failure self _ _ _ _ h6,
      get_parameter_value_of_no_failure self _ _ _ _ h7,
      get_parameter_value_of_no_failure self _ _ _ _ h8,
      ok_bind, he, error_bind]
  rcases Bool.eq_false_or_eq_true (self.interop_failure "RecommendedActions") with h10 | h10
  · obtain ⟨e, he, obj, hobj, hcode, hloc⟩ :=
      get_parameter_value_error_uniform self slot "RecommendedActions" h10
    have hf0 : Field.RecommendedActions = f0 := by
      simpa [Field.cimErrorFields, List.find?_cons, Field.name, h1, h2, h3, h4, h5, h6, h7, h8, h9, h10] using h
    subst hf0
    refine ⟨e, obj, ?_, hobj, hcode, he⟩
    simp only [WmiErrorInfo.write_CIMError,
      get_parameter_value_of_no_failure self _ _ _ _ h1,
      get_parameter_value_of_no_failure self _ _ _ _ h2,
      get_parameter_value_of_no_failure self _ _ _ _ h3,
      get_parameter_value_of_no_failure self _ _ _ _ h4,
      get_parameter_value_of_no_failure self _ _ _ _ h5,
      get_parameter_value_of_no_failure self _ _ _ _ h6,
      get_parameter_value_of_no_failure self _ _ _ _ h7,
      get_parameter_value_of_no_failure self _ _ _ _ h8,
      get_parameter_value_of_no_failure self _ _ _ _ h9,
      ok_bind, he, error_bind]
  rcases Bool.eq_false_or_eq_true (self.interop_failure "ErrorSource") with h11 | h11
  · obtain ⟨e, he, obj, hobj, hcode, hloc⟩ :=
      get_parameter_value_error_uniform self slot "ErrorSource" h11
    have hf0 : Field.ErrorSource = f0 := by
      simpa [Field.cimErrorFields, List.find?_cons, Field.name, h1, h2, h3, h4, h5, h6, h7, h8, h9, h10, h11] using h
    subst hf0
    refine ⟨e, obj, ?_, hobj, hcode, he⟩
    simp only [WmiErrorInfo.write_CIMError,
      get_parameter_value_of_no_failure self _ _ _ _ h1,
      get_parameter_value_of_no_failure self _ _ _ _ h2,
      get_parameter_value_of_no_failure self _ _ _ _ h3,
      get_parameter_value_of_no_failure self _ _ _ _ h4,
      get_parameter_value_of_no_failure self _ _ _ _ h5,
      get_parameter_value_of_no_failure self _ _ _ _ h6,
      get_parameter_value_of_no_failure self _ _ _ _ h7,
      get_parameter_value_of_no_failure self _ _ _ _ h8,
      get_parameter_value_of_no_failure self _ _ _ _ h9,
      get_parameter_value_of_no_failure self _ _ _ _ h10,
      ok_bind, he, error_bind]
  rcases Bool.eq_false_or_eq_true (self.interop_failure "ErrorSourceFormat") with h12 | h12
  · obtain ⟨e, he, obj, hobj, hcode, hloc⟩ :=
      get_parameter_value_error_uniform self slot "ErrorSourceFormat" h12
    have hf0 : Field.ErrorSourceFormat = f0 := by
      simpa [Field.cimErrorFields, List.find?_cons, Field.name, h1, h2, h3, h4, h5, h6, h7, h8, h9, h10, h11, h12] using h
    subst hf0
    refine ⟨e, obj, ?_, hobj, hcode, he⟩
    simp only [WmiErrorInfo.write_CIMError,
      get_parameter_value_of_no_failure self _ _ _ _ h1,
      get_parameter_value_of_no_failure self _ _ _ _ h2,
      get_parameter_value_of_no_failure self _ _ _ _ h3,
      get_parameter_value_of_no_failure self _ _ _ _ h4,
      get_parameter_value_of_no_failure self _ _ _ _ h5,
      get_parameter_value_of_no_failure self _ _ _ _ h6,
      get_parameter_value_of_no_failure self _ _ _ _ h7,
      get_parameter_value_of_no_failure self _ _ _ _ h8,
      get_parameter_value_of_no_failure self _ _ _ _ h9,
      get_parameter_value_of_no_failure self _ _ _ _ h10,
      get_parameter_value_of_no_failure self _ _ _ _ h11,
      ok_bind, he, error_bind]
  rcases Bool.eq_false_or_eq_true (self.interop_failure "OtherErrorSourceFormat") with h13 | h13
  · obtain ⟨e, he, obj, hobj, hcode, hloc⟩ :=
      get_parameter_value_error_uniform self slot "OtherErrorSourceFormat" h13
    have hf0 : Field.OtherErrorSourceFormat = f0 := by
      simpa [Field.cimErrorFields, List.find?_cons, Field.name, h1, h2, h3, h4, h5, h6, h7, h8, h9, h10, h11, h12, h13] using h
    subst hf0
    refine ⟨e, obj, ?_, hobj, hcode, he⟩
    simp only [WmiErrorInfo.write_CIMError,
      get_parameter_value_of_no_failure self _ _ _ _ h1,
      get_parameter_value_of_no_failure self _ _ _ _ h2,
      get_parameter_value_of_no_failure self _ _ _ _ h3,
      get_parameter_value_of_no_failure self _ _ _ _ h4,
      get_parameter_value_of_no_failure self _ _ _ _ h5,
      get_parameter_value_of_no_failure self _ _ _ _ h6,
      get_parameter_value_of_no_failure self _ _ _ _ h7,
      get_parameter_value_of_no_failure self _ _ _ _ h8,
      get_parameter_value_of_no_failure self _ _ _ _ h9,
      get_parameter_value_of_no_failure self _ _ _ _ h10,
      get_parameter_value_of_no_failure self _ _ _ _ h11,
      get_parameter_value_of_no_failure self _ _ _ _ h12,
      ok_bind, he, error_bind]
  rcases Bool.eq_false_or_eq_true (self.interop_failure "CIMStatusCode") with h14 | h14
  · obtain ⟨e, he, obj, hobj, hcode, hloc⟩ :=
      get_parameter_value_error_uniform self slot "CIMStatusCode" h14
    have hf0 : Field.CIMStatusCode = f0 := by
      simpa [Field.cimErrorFields, List.find?_cons, Field.name, h1, h2, h3, h4, h5, h6, h7, h8, h9, h10, h11, h12, h13, h14] using h
    subst hf0
    refine ⟨e, obj, ?_, hobj, hcode, he⟩
    simp only [WmiErrorInfo.write_CIMError,
      get_parameter_value_of_no_failure self _ _ _ _ h1,
      get_parameter_value_of_no_failure self _ _ _ _ h2,
      get_parameter_value_of_no_failure self _ _ _ _ h3,
      get_parameter_value_of_no_failure self _ _ _ _ h4,
      get_parameter_value_of_no_failure self _ _ _ _ h5,
      get_parameter_value_of_no_failure self _ _ _ _ h6,
      get_parameter_value_of_no_failure self _ _ _ _ h7,
      get_parameter_value_of_no_failure self _ _ _ _ h8,
      get_parameter_value_of_no_failure self _ _ _ _ h9,
      get_parameter_value_of_no_failure self _ _ _ _ h10,
      get_parameter_value_of_no_failure self _ _ _ _ h11,
      get_parameter_value_of_no_failure self _ _ _ _ h12,
      get_parameter_value_of_no_failure self _ _ _ _ h13,
      ok_bind, he, error_bind]
  rcases Bool.eq_false_or_eq_true (self.interop_failure "CIMStatusCodeDescription") with h15 | h15
  · obtain ⟨e, he, obj, hobj, hcode, hloc⟩ :=
      get_parameter_value_error_uniform self slot "CIMStatusCodeDescription" h15
    have hf0 : Field.CIMStatusCodeDescription = f0 := by
      simpa [Field.cimErrorFields, List.find?_cons, Field.name, h1, h2, h3, h4, h5, h6, h7, h8, h9, h10, h11, h12, h13, h14, h15] using h
    subst hf0
    refine ⟨e, obj, ?_, hobj, hcode, he⟩
    simp only [WmiErrorInfo.write_CIMError,
      get_parameter_value_of_no_failure self _ _ _ _ h1,
      get_parameter_value_of_no_failure self _ _ _ _ h2,
      get_parameter_value_of_no_failure self _ _ _ _ h3,
      get_parameter_value_of_no_failure self _ _ _ _ h4,
      get_parameter_value_of_no_failure self _ _ _ _ h5,
      get_parameter_value_of_no_failure self _ _ _ _ h6,
      get_parameter_value_of_no_failure self _ _ _ _ h7,
      get_parameter_value_of_no_failure self _ _ _ _ h8,
      get_parameter_value_of_no_failure self _ _ _ _ h9,
      get_parameter_value_of_no_failure self _ _ _ _ h10,
      get_parameter_value_of_no_failure self _ _ _ _ h11,
      get_parameter_value_of_no_failure self _ _ _ _ h12,
      get_parameter_value_of_no_failure self _ _ _ _ h13,
      get_parameter_value_of_no_failure self _ _ _ _ h14,
      ok_bind, he, error_bind]
  simp [Field.cimErrorFields, List.find?_cons, Field.name, h1, h2, h3, h4, h5, h6, h7, h8, h9, h10, h11, h12, h13, h14, h15] at h

theorem no_failure_of_find_none (self : WmiErrorInfo) (l : List Field)
    (h : l.find? (fun f => self.interop_failure f.name) = none) :
    ∀ f ∈ l, self.interop_failure f.name = false := by
  intro f hf
  have := List.find?_eq_none.mp h f hf
  simpa using this

theorem error_text_ext_failure (self : WmiErrorInfo) (slot : ErrorSlot) (f0 : Field)
    (h : Field.extendedStatusFields.find? (fun f => self.interop_failure f.name) = some f0) :
    ∃ e obj, self.error_text slot = Except.error e ∧ self.error_info = some obj
      ∧ e.code = (obj.property f0.name).1 ∧ self.throws_for slot f0.name e := by
  obtain ⟨e, obj, he, hobj, hcode, hloc⟩ := write_ExtendedStatus_first_failure self slot f0 h
  exact ⟨e, obj, by simp only [WmiErrorInfo.error_text, he, error_bind], hobj, hcode, hloc⟩

theorem error_text_cim_failure (self : WmiErrorInfo) (slot : ErrorSlot) (f0 : Field)
    (hext : Field.extendedStatusFields.find? (fun f => self.interop_failure f.name) = none)
    (h : Field.cimErrorFields.find? (fun f => self.interop_failure f.name) = some f0) :
    ∃ e obj, self.error_text slot = Except.error e ∧ self.error_info = some obj
      ∧ e.code = (obj.property f0.name).1 ∧ self.throws_for slot f0.name e := by
  obtain ⟨e, obj, he, hobj, hcode, hloc⟩ := write_CIMError_first_failure self slot f0 h
  have ha := write_ExtendedStatus_lines self slot (no_failure_of_find_none self _ hext)
  exact ⟨e, obj, by simp only [WmiErrorInfo.error_text, ha, ok_bind, he, error_bind],
    hobj, hcode, hloc⟩

theorem error_text_cim_first_cim_failure (self : WmiErrorInfo) (slot : ErrorSlot) (f0 : Field)
    (h : Field.cimErrorFields.find? (fun f => self.interop_failure f.name) = some f0) :
    ∃ e obj, self.error_text_cim_first slot = Except.error e ∧ self.error_info = some obj
      ∧ e.code = (obj.property f0.name).1 ∧ self.throws_for slot f0.name e := by
  obtain ⟨e, obj, he, hobj, hcode, hloc⟩ := write_CIMError_first_failure self slot f0 h
  exact ⟨e, obj, by simp only [WmiErrorInfo.error_text_cim_first, he, error_bind],
    hobj, hcode, hloc⟩

theorem error_text_cim_first_ext_failure (self : WmiErrorInfo) (slot : ErrorSlot) (f0 : Field)
    (hcim : Field.cimErrorFields.find? (fun f => self.interop_failure f.name) = none)
    (h : Field.extendedStatusFields.find? (fun f => self.interop_failure f.name) = some f0) :
    ∃ e obj, self.error_text_cim_first slot = Except.error e ∧ self.error_info = some obj
      ∧ e.code = (obj.property f0.name).1 ∧ self.throws_for slot f0.name e := by
  obtain ⟨e, obj, he, hobj, hcode, hloc⟩ := write_ExtendedStatus_first_failure self slot f0 h
  have hb := write_CIMError_lines self slot (no_failure_of_find_none self _ hcim)
  exact ⟨e, obj, by simp only [WmiErrorInfo.error_text_cim_first, hb, ok_bind, he, error_bind],
    hobj, hcode, hloc⟩

/-- Both orders of the two calls return the same text when either of them returns. -/
theorem error_text_order_ok (self : WmiErrorInfo) (slot : ErrorSlot) (t : String) :
    self.error_text slot = Except.ok t ↔ self.error_text_cim_first slot = Except.ok t := by
  cases ha : self.write_ExtendedStatus slot <;> cases hb : self.write_CIMError slot <;>
    simp [WmiErrorInfo.error_text, WmiErrorInfo.error_text_cim_first, ha, hb, ok_bind,
      error_bind]

/-- C18, refuted as stated: in a bag whose `Description` query fails with `E_FAIL` and whose
`Message` query fails with `E_ACCESSDENIED`, the first failing field in report order is
`Description`, and when `write_CIMError()` is the operand evaluated first the exception that
`error_text()` raises is the one the query of `Message` throws, with the status of
`Message`, which is not the status of `Description`. -/
theorem error_text_cim_first_at_doubleFailureObject :
    (Field.extendedStatusFields ++ Field.cimErrorFields).find?
        (fun f => WmiErrorInfo.interop_failure { error_info := some doubleFailureObject } f.name)
      = some Field.Description
    ∧ (doubleFailureObject.property "Description").1 = E_FAIL
    ∧ ∃ e, WmiErrorInfo.error_text_cim_first { error_info := some doubleFailureObject } none
          = Except.error e
        ∧ e.code = 0x80070005 - 0x100000000
        ∧ e.code ≠ E_FAIL
        ∧ WmiErrorInfo.get_Message { error_info := some doubleFailureObject } none ""
            = Except.error e :=
  ⟨by decide, rfl, _, rfl, rfl, by decide, rfl⟩

/-- C18, amended: when at least one of the twenty queries is an interop failure,
`error_text()` returns no text and raises, whichever of the two section builders is called
first. The exception is the one the query of a field throws, with the status of that
field: the first failing field in report order when `write_ExtendedStatus()` is called
first, and the first failing field in the order CIM section, extended-status section when
`write_CIMError()` is called first; when the failing fields all lie in one section both
orders raise the same exception, that of the first failing field in report order. -/
theorem report_aborts_at_first_failure (self : WmiErrorInfo) (slot : ErrorSlot) :
    (∀ f0, (Field.extendedStatusFields ++ Field.cimErrorFields).find?
          (fun f => self.interop_failure f.name) = some f0 →
        ∃ e obj, self.error_text slot = Except.error e ∧ self.error_info = some obj
          ∧ e.code = (obj.property f0.name).1 ∧ self.throws_for slot f0.name e)
    ∧ (∀ f0, (Field.cimErrorFields ++ Field.extendedStatusFields).find?
          (fun f => self.interop_failure f.name) = some f0 →
        ∃ e obj, self.error_text_cim_first slot = Except.error e ∧ self.error_info = some obj
          ∧ e.code = (obj.property f0.name).1 ∧ self.throws_for slot f0.name e)
    ∧ (∀ f : Field, self.interop_failure f.name = true →
        (∃ e, self.error_text slot = Except.error e)
        ∧ (∃ e, self.error_text_cim_first slot = Except.error e))
    ∧ (∀ f0,
        (Field.extendedStatusFields.find? (fun f => self.interop_failure f.name) = none
          ∨ Field.cimErrorFields.find? (fun f => self.interop_failure f.name) = none) →
        (Field.extendedStatusFields ++ Field.cimErrorFields).find?
          (fun f => self.interop_failure f.name) = some f0 →
        ∃ e obj, self.error_text slot = Except.error e
          ∧ self.error_text_cim_first slot = Except.error e ∧ self.error_info = some obj
          ∧ e.code = (obj.property f0.name).1 ∧ self.throws_for slot f0.name e)
    ∧ (∀ t, self.error_text slot = Except.ok t ↔ self.error_text_cim_first slot = Except.ok t) := by
  have left : ∀ f0, (Field.extendedStatusFields ++ Field.cimErrorFields).find?
        (fun f => self.interop_failure f.name) = some f0 →
      ∃ e obj, self.error_text slot = Except.error e ∧ self.error_info = some obj
        ∧ e.code = (obj.property f0.name).1 ∧ self.throws_for slot f0.name e := by
    intro f0 h
    rw [List.find?_append] at h
    cases hext : Field.extendedStatusFields.find? (fun f => self.interop_failure f.name) with
    | some f1 =>
      rw [hext] at h
      simp only [Option.or_some, Option.some.injEq] at h
      subst h
      exact error_text_ext_failure self slot f1 hext
    | none =>
      rw [hext] at h
      simp only [Option.none_or] at h
      exact error_text_cim_failure self slot f0 hext h
  have right : ∀ f0, (Field.cimErrorFields ++ Field.extendedStatusFields).find?
        (fun f => self.interop_failure f.name) = some f0 →
      ∃ e obj, self.error_text_cim_first slot = Except.error e ∧ self.error_info = some obj
        ∧ e.code = (obj.property f0.name).1 ∧ self.throws_for slot f0.name e := by
    intro f0 h
    rw [List.find?_append] at h
    cases hcim : Field.cimErrorFields.find? (fun f => self.interop_failure f.name) with
    | some f1 =>
      rw [hcim] at h
      simp only [Option.or_some, Option.some.injEq] at h
      subst h
      exact error_text_cim_first_cim_failure self slot f1 hcim
    | none =>
      rw [hcim] at h
      simp only [Option.none_or] at h
      exact error_text_cim_first_ext_failure self slot f0 hcim h
  refine ⟨left, right, ?_, ?_, error_text_order_ok self slot⟩
  · intro f hf
    have hmem1 : f ∈ Field.extendedStatusFields ++ Field.cimErrorFields := by
      cases f <;> decide
    have hmem2 : f ∈ Field.cimErrorFields ++ Field.extendedStatusFields := by
      cases f <;> decide
    constructor
    · cases h1 : (Field.extendedStatusFields ++ Field.cimErrorFields).find?
          (fun f => self.interop_failure f.name) with
      | none =>
        have := no_failure_of_find_none self _ h1 f hmem1
        rw [hf] at this
        cases this
      | some f0 =>
        obtain ⟨e, _, he, _⟩ := left f0 h1
        exact ⟨e, he⟩
    · cases h2 : (Field.cimErrorFields ++ Field.extendedStatusFields).find?
          (fun f => self.interop_failure f.name) with
      | none =>
        have := no_failure_of_find_none self _ h2 f hmem2
        rw [hf] at this
        cases this
      | some f0 =>
        obtain ⟨e, _, he, _⟩ := right f0 h2
        exact ⟨e, he⟩
  · intro f0 hone h
    rw [List.find?_append] at h
    rcases hone with hext | hcim
    · rw [hext] at h
      simp only [Option.none_or] at h
      obtain ⟨e, obj, he, hobj, hcode, hloc⟩ := write_CIMError_first_failure self slot f0 h
      have ha := write_ExtendedStatus_lines self slot (no_failure_of_find_none self _ hext)
      exact ⟨e, obj, by simp only [WmiErrorInfo.error_text, ha, ok_bind, he, error_bind],
        by simp only [WmiErrorInfo.error_text_cim_first, he, error_bind], hobj, hcode, hloc⟩
    · cases hext : Field.extendedStatusFields.find? (fun f => self.interop_failure f.name) with
      | none =>
        rw [hext, hcim] at h
        simp at h
      | some f1 =>
        rw [hext] at h
        simp only [Option.or_some, Option.some.injEq] at h
        subst h
        obtain ⟨e, obj, he, hobj, hcode, hloc⟩ :=
          write_ExtendedStatus_first_failure self slot f1 hext
        have hb := write_CIMError_lines self slot (no_failure_of_find_none self _ hcim)
        exact ⟨e, obj, by simp only [WmiErrorInfo.error_text, he, error_bind],
          by simp only [WmiErrorInfo.error_text_cim_first, hb, ok_bind, he, error_bind],
          hobj, hcode, hloc⟩

/-- C18, amended, at the bag whose `Description` query alone fails and at the bag in which
the queries of `Description` and `Message` fail: with `write_ExtendedStatus()` called first
the exception is the one `get_Description` throws, with the status `E_FAIL`, in both. -/
theorem report_aborts_at_first_failure_witness :
    (∃ e, WmiErrorInfo.error_text { error_info := some brokenObject } none = Except.error e
      ∧ WmiErrorInfo.error_text_cim_first { error_info := some brokenObject } none
          = Except.error e
      ∧ e.code = E_FAIL
      ∧ WmiErrorInfo.get_Description { error_info := some brokenObject } none ""
          = Except.error e)
    ∧ (∃ e, WmiErrorInfo.error_text { error_info := some doubleFailureObject } none
          = Except.error e
      ∧ e.code = E_FAIL
      ∧ WmiErrorInfo.get_Description { error_info := some doubleFailureObject } none ""
          = Except.error e) := by
  constructor
  · obtain ⟨e, obj, h1, h2, hobj, hcode, hthrown⟩ :=
      (report_aborts_at_first_failure { error_info := some brokenObject } none).2.2.2.1
        Field.Description (Or.inr (by decide)) (by decide)
    injection hobj with hobj
    subst hobj
    exact ⟨e, h1, h2, hcode, hthrown String ComVariant.retrieve_wstring ""⟩
  · obtain ⟨e, obj, h1, hobj, hcode, hthrown⟩ :=
      (report_aborts_at_first_failure { error_info := some doubleFailureObject } none).1
        Field.Description (by decide)
    injection hobj with hobj
    subst hobj
    exact ⟨e, h1, hcode, hthrown String ComVariant.retrieve_wstring ""⟩

end ntl
